import Mathlib

/-!
# URL shortener: cache-aside link service, bounded-retry creation, stats join

A shallow embedding of the Go sources under `internal/`:

* `core/services/link.go`        : `LinkService.GetAll / GetOriginalURL / Create / Delete`
* `adapters/repository/link.go`  : `LinkRepository.Get / Create / Delete / All`
* `adapters/handlers/generate.go`: `CreateShortLink`, `GenerateShortURLID`
* `adapters/handlers/stats.go`   : `Stats`, `GetLinkStats`
* `adapters/handlers/redirect.go`: `Redirect`
* `adapters/handlers/utils.go`   : `IsMaliciousURL`, `ExtractPlatformFromRequest`
* `tests/mock/mock_cache_improved.go` : `ImprovedMockCache`
* `config/constants.go`

Go's `(value, error)` results are records carrying the value, the error (`none` is
`nil`) and the state of the collaborator after the call.  A `go func() ...` statement
appends a task to the list of started goroutines; running a task is a separate step, so
a caller's result never depends on it.  Every call on a port is recorded in a trace.
-/

namespace UrlShortener

/-! ## Errors -/

/-- A Go `error` value.  `condCheckFailed` is `*ddbtypes.ConditionalCheckFailedException`,
`leaf` is any other error value without a cause, and `wrap pre inner` is
`fmt.Errorf(pre + "%w", inner)`. -/
inductive GoError where
  | condCheckFailed (msg : String)
  | leaf (msg : String)
  | wrap (pre : String) (inner : GoError)
  deriving DecidableEq, Repr

namespace GoError

/-- The text of `err.Error()`. -/
def Error : GoError → String
  | condCheckFailed msg => msg
  | leaf msg => msg
  | wrap pre inner => pre ++ inner.Error

/-- The test `errors.As(err, &condCheckErr)` with
`condCheckErr *ddbtypes.ConditionalCheckFailedException`: walks the `%w` chain. -/
def asCondCheckFailed : GoError → Bool
  | condCheckFailed _ => true
  | leaf _ => false
  | wrap _ inner => inner.asCondCheckFailed

end GoError

/-! ## Configuration constants (`config/constants.go`) -/

def MinURLLength : Nat := 15
def ShortIDLength : Nat := 8
def MaxRetries : Nat := 3

/-! ## Domain -/

/-- Modelled from the spec: `domain.Platform` (package `domain` is not among the sources);
§3 enumerates Instagram, Twitter, YouTube, Unknown. -/
inductive Platform where
  | Instagram | Twitter | YouTube | Unknown
  deriving DecidableEq, Repr

/-- Modelled from the spec: `domain.Stats`, with the fields `Id`, `LinkID`, `CreatedAt`,
`Platform` that `handlers/redirect.go` fills in. Timestamps are nanoseconds since the epoch. -/
structure Stats where
  Id : String
  LinkID : String
  CreatedAt : Nat
  Platform : Platform
  deriving DecidableEq, Repr

/-- Modelled from the spec: `domain.Link`, with the fields `Id`, `OriginalURL`, `CreatedAt`
(`handlers/generate.go`) and `Stats` (`handlers/stats.go`). -/
structure Link where
  Id : String
  OriginalURL : String
  CreatedAt : Nat
  Stats : List Stats
  deriving DecidableEq, Repr

/-- The Go zero value `domain.Link{}`. -/
def Link.zero : Link := { Id := "", OriginalURL := "", CreatedAt := 0, Stats := [] }

/-! ## Ports -/

/-- The outcome of a call on a collaborator with state `σ`: the returned value, the
returned `error` and the collaborator afterwards. -/
structure Ret (α σ : Type) where
  val : α
  err : Option GoError
  state : σ

/-- The interface `ports.LinkPort` as `LinkService` uses it. -/
structure LinkPort (σ : Type) where
  All : σ → Ret (List Link) σ
  Get : String → σ → Ret Link σ
  Create : Link → σ → Ret Unit σ
  Delete : String → σ → Ret Unit σ

/-- The interface `ports.Cache` as `LinkService` uses it. -/
structure Cache (κ : Type) where
  Set : String → String → κ → Ret Unit κ
  Get : String → κ → Ret String κ
  Delete : String → κ → Ret Unit κ

/-! ## Goroutines, trace, world -/

/-- The body of a `go` statement of the sources. -/
inductive Task where
  /-- The goroutine calling `cache.Set(context.Background(), key, val)`, failure logged. -/
  | cacheSet (key val : String)
  /-- The goroutine calling `cache.Delete(context.Background(), key)`, failure logged. -/
  | cacheDelete (key : String)
  /-- The goroutine calling `sendMessageToQueue(context.Background(), link)`. -/
  | notify (link : Link)
  /-- The goroutine of `Redirect` calling `statsService.Create` for a click on `linkID`. -/
  | recordStats (linkID : String) (platform : Platform)
  deriving DecidableEq, Repr

/-- What the program did, in order. -/
inductive Event where
  | cacheGet (key : String)
  | cacheSet (key val : String)
  | cacheDelete (key : String)
  | storeAll
  | storeGet (id : String)
  | storeCreate (link : Link)
  | storeDelete (id : String)
  | generate (id : String)
  | spawn (t : Task)
  deriving DecidableEq, Repr

/-- The state threaded through the program: the store and the cache behind their ports,
the goroutines started and not yet run, the trace, and how many values have been read from
the random source and from the clock. -/
structure World (σ κ : Type) where
  store : σ
  cache : κ
  pending : List Task
  trace : List Event
  randPos : Nat
  clockPos : Nat

namespace World

variable {σ κ : Type}

/-- A `go` statement: the task is started, not run. -/
def spawn (t : Task) (w : World σ κ) : World σ κ :=
  { w with pending := w.pending ++ [t], trace := w.trace ++ [Event.spawn t] }

/-- Record an event. -/
def log (e : Event) (w : World σ κ) : World σ κ :=
  { w with trace := w.trace ++ [e] }

end World

/-- Run the body of one goroutine against the cache. Its error is only logged. -/
def Task.run {σ κ : Type} (C : Cache κ) (t : Task) (w : World σ κ) : World σ κ :=
  match t with
  | Task.cacheSet key val =>
    { w with cache := (C.Set key val w.cache).state, trace := w.trace ++ [Event.cacheSet key val] }
  | Task.cacheDelete key =>
    { w with cache := (C.Delete key w.cache).state, trace := w.trace ++ [Event.cacheDelete key] }
  | Task.notify _ => w
  | Task.recordStats _ _ => w

/-- Run every started goroutine, oldest first. -/
def runPending {σ κ : Type} (C : Cache κ) (w : World σ κ) : World σ κ :=
  w.pending.foldl (fun acc t => Task.run C t acc) { w with pending := [] }

/-! ## `core/services/link.go` -/

namespace LinkService

variable {σ κ : Type}

/-- Method `LinkService.GetAll`. -/
def GetAll (P : LinkPort σ) (w : World σ κ) : Ret (List Link) (World σ κ) :=
  let r := P.All w.store
  let w1 := World.log Event.storeAll { w with store := r.state }
  match r.err with
  | some err => { val := [], err := some (GoError.wrap "failed to get all links: " err), state := w1 }
  | none => { val := r.val, err := none, state := w1 }

/-- Method `LinkService.GetOriginalURL`. The value is the `*string` result, `none` for `nil`. -/
def GetOriginalURL (P : LinkPort σ) (C : Cache κ) (shortLinkKey : String) (w : World σ κ) :
    Ret (Option String) (World σ κ) :=
  let c := C.Get shortLinkKey w.cache
  let w1 := World.log (Event.cacheGet shortLinkKey) { w with cache := c.state }
  if c.err = none ∧ c.val ≠ "" then
    { val := some c.val, err := none, state := w1 }
  else
    let d := P.Get shortLinkKey w1.store
    let w2 := World.log (Event.storeGet shortLinkKey) { w1 with store := d.state }
    match d.err with
    | some err =>
      { val := none
        err := some (GoError.wrap ("failed to get short URL for identifier '" ++ shortLinkKey ++ "': ") err)
        state := w2 }
    | none =>
      if d.val.OriginalURL = "" then
        { val := none
          err := some (GoError.leaf ("link '" ++ shortLinkKey ++ "' not found or has no URL"))
          state := w2 }
      else
        { val := some d.val.OriginalURL, err := none
          state := World.spawn (Task.cacheSet shortLinkKey d.val.OriginalURL) w2 }

/-- Method `LinkService.Create`: the store first, then the goroutine that fills the cache. -/
def Create (P : LinkPort σ) (link : Link) (w : World σ κ) : Ret Unit (World σ κ) :=
  let r := P.Create link w.store
  let w1 := World.log (Event.storeCreate link) { w with store := r.state }
  match r.err with
  | some err => { val := (), err := some (GoError.wrap "failed to create short URL: " err), state := w1 }
  | none => { val := (), err := none, state := World.spawn (Task.cacheSet link.Id link.OriginalURL) w1 }

/-- Method `LinkService.Delete`: the store first, then the goroutine that clears the cache. -/
def Delete (P : LinkPort σ) (short : String) (w : World σ κ) : Ret Unit (World σ κ) :=
  let r := P.Delete short w.store
  let w1 := World.log (Event.storeDelete short) { w with store := r.state }
  match r.err with
  | some err =>
    { val := ()
      err := some (GoError.wrap ("failed to delete short URL for identifier '" ++ short ++ "': ") err)
      state := w1 }
  | none => { val := (), err := none, state := World.spawn (Task.cacheDelete short) w1 }

end LinkService

/-! ## `adapters/repository/link.go` over a DynamoDB client -/

/-- The calls `LinkRepository` makes on `*dynamodb.Client`, for a client with state `δ`.
Items are kept as `Link` values: `attributevalue.MarshalMap` and `UnmarshalMap` are the
identity on them and do not fail, so the two marshalling error returns of the repository
have no counterpart here; unmarshalling an absent item leaves the zero `Link`.
`PutItemIfAbsent` is `PutItem` with `ConditionExpression: attribute_not_exists(id)`;
`GetItem` yields `none` for an empty `result.Item`; `ScanAll` stands for the paginated
`Scan` loop of `All`, yielding the pages read and the error that stopped it, if any. -/
structure DynamoClient (δ : Type) where
  PutItemIfAbsent : Link → δ → Ret Unit δ
  GetItem : String → δ → Ret (Option Link) δ
  DeleteItem : String → δ → Ret Unit δ
  ScanAll : δ → Ret (List Link) δ

namespace LinkRepository

variable {δ : Type}

/-- Method `LinkRepository.All`. -/
def All (cl : DynamoClient δ) (db : δ) : Ret (List Link) δ :=
  let r := cl.ScanAll db
  match r.err with
  | some err =>
    { val := r.val, err := some (GoError.wrap "failed to get items from DynamoDB: " err), state := r.state }
  | none => { val := r.val, err := none, state := r.state }

/-- Method `LinkRepository.Get`: an absent item gives the zero `Link` and no error. -/
def Get (cl : DynamoClient δ) (id : String) (db : δ) : Ret Link δ :=
  let r := cl.GetItem id db
  match r.err with
  | some err =>
    { val := Link.zero, err := some (GoError.wrap "failed to get item from DynamoDB: " err), state := r.state }
  | none => { val := r.val.getD Link.zero, err := none, state := r.state }

/-- Method `LinkRepository.Create`: a conditional put; a failed condition is told apart from
any other client error with `errors.As`. -/
def Create (cl : DynamoClient δ) (link : Link) (db : δ) : Ret Unit δ :=
  let r := cl.PutItemIfAbsent link db
  match r.err with
  | some err =>
    if err.asCondCheckFailed then
      { val := (), err := some (GoError.wrap ("link with id '" ++ link.Id ++ "' already exists: ") err)
        state := r.state }
    else
      { val := (), err := some (GoError.wrap "failed to put item to DynamoDB: " err), state := r.state }
  | none => { val := (), err := none, state := r.state }

/-- Method `LinkRepository.Delete`. -/
def Delete (cl : DynamoClient δ) (id : String) (db : δ) : Ret Unit δ :=
  let r := cl.DeleteItem id db
  match r.err with
  | some err =>
    { val := (), err := some (GoError.wrap "failed to delete item from DynamoDB: " err), state := r.state }
  | none => { val := (), err := none, state := r.state }

/-- The repository as a `ports.LinkPort`. -/
def port (cl : DynamoClient δ) : LinkPort δ :=
  { All := All cl, Get := Get cl, Create := Create cl, Delete := Delete cl }

end LinkRepository

/-! ## The DynamoDB table -/

/-- The rows of the links table. -/
abbrev Table := List Link

namespace Table

/-- Whether some row has the key `id`. -/
def hasId (t : Table) (id : String) : Bool := t.any (fun l => l.Id == id)

/-- The row with key `id`, if any. -/
def lookup (t : Table) (id : String) : Option Link := t.find? (fun l => l.Id == id)

/-- The keys of the rows, in order. -/
def ids (t : Table) : List String := t.map Link.Id

/-- The message of the exception DynamoDB raises when the condition of a put fails. -/
def condFailedMsg : String := "ConditionalCheckFailedException: The conditional request failed"

/-- A put guarded by `attribute_not_exists(id)`: refused when a row has the key, else the
row is added. -/
def putIfAbsent (link : Link) (t : Table) : Ret Unit Table :=
  if t.hasId link.Id then
    { val := (), err := some (GoError.condCheckFailed condFailedMsg), state := t }
  else
    { val := (), err := none, state := t ++ [link] }

/-- A client whose backend is reachable and holds the table `t`. -/
def client : DynamoClient Table :=
  { PutItemIfAbsent := putIfAbsent
    GetItem := fun id t => { val := t.lookup id, err := none, state := t }
    DeleteItem := fun id t => { val := (), err := none, state := t.filter (fun l => !(l.Id == id)) }
    ScanAll := fun t => { val := t, err := none, state := t } }

/-- The links repository on a reachable table. -/
def repo : LinkPort Table := LinkRepository.port client

/-- The table after the creates of `links`, in order, each through `LinkRepository.Create`. -/
def createAll (t : Table) (links : List Link) : Table :=
  links.foldl (fun acc l => (repo.Create l acc).state) t

end Table

/-! ## `tests/mock/mock_cache_improved.go` -/

/-- The struct `ImprovedMockCache`; `data` is the Go map as an association list with at most
one pair per key in use (the first pair of a key is the one that counts). -/
structure ImprovedMockCache where
  data : List (String × String)
  getCount : Nat
  setCount : Nat
  delCount : Nat
  shouldFail : Bool
  deriving DecidableEq, Repr

namespace ImprovedMockCache

/-- Constructor `NewImprovedMockCache`. -/
def new : ImprovedMockCache :=
  { data := [], getCount := 0, setCount := 0, delCount := 0, shouldFail := false }

/-- The map read `m.data[key]`. -/
def find (m : ImprovedMockCache) (key : String) : Option String := m.data.lookup key

/-- Method `Set`. -/
def Set (key val : String) (m : ImprovedMockCache) : Ret Unit ImprovedMockCache :=
  if m.shouldFail then
    { val := (), err := some (GoError.leaf "mock cache: set operation failed"), state := m }
  else
    { val := (), err := none
      state := { m with setCount := m.setCount + 1
                        data := (key, val) :: m.data.filter (fun p => !(p.1 == key)) } }

/-- Method `Get`: an absent key gives the empty string and no error. -/
def Get (key : String) (m : ImprovedMockCache) : Ret String ImprovedMockCache :=
  if m.shouldFail then
    { val := "", err := some (GoError.leaf "mock cache: get operation failed"), state := m }
  else
    { val := (m.find key).getD "", err := none, state := { m with getCount := m.getCount + 1 } }

/-- Method `Delete`. -/
def Delete (key : String) (m : ImprovedMockCache) : Ret Unit ImprovedMockCache :=
  if m.shouldFail then
    { val := (), err := some (GoError.leaf "mock cache: delete operation failed"), state := m }
  else
    { val := (), err := none
      state := { m with delCount := m.delCount + 1
                        data := m.data.filter (fun p => !(p.1 == key)) } }

/-- Method `SetFailureMode`. -/
def SetFailureMode (fail : Bool) (m : ImprovedMockCache) : ImprovedMockCache :=
  { m with shouldFail := fail }

/-- The mock as a `ports.Cache`. -/
def port : Cache ImprovedMockCache := { Set := Set, Get := Get, Delete := Delete }

end ImprovedMockCache

/-! ## What the handlers take from outside the sources -/

/-- The collaborators of the handlers that are not part of the sources.
`rand n` is the outcome of the `n`-th call `rand.Int(rand.Reader, big.NewInt(62))`
(`none` when it returns an error), `clock n` the `n`-th reading of `time.Now()` in
nanoseconds since the epoch, `unicodeLower` is `unicode.ToLower` outside ASCII,
`unmarshalBody` is `json.Unmarshal` into `RequestBody` followed by reading `Long`,
`marshalLink` and `marshalLinks` are `json.Marshal`, `IsValidLink` is the handlers
helper of that name and `serverErrorBody` the body `ServerError` answers with. -/
structure Env where
  rand : Nat → Option (Fin 62)
  clock : Nat → Nat
  unicodeLower : Char → Char
  unmarshalBody : String → Except GoError String
  marshalLink : Link → Except GoError String
  marshalLinks : List Link → Except GoError String
  IsValidLink : String → Bool
  serverErrorBody : GoError → String

/-- The struct `events.APIGatewayProxyResponse`, with the fields the handlers set. -/
structure APIGatewayProxyResponse where
  StatusCode : Nat
  Body : String
  Headers : List (String × String)
  deriving DecidableEq, Repr

/-- Modelled from the spec: `ClientError` is not among the sources. §6 says a validation
failure gives the status with a plain-text reason, and `generate_link_test.go` expects the
status, the reason as body and a nil error. -/
def ClientError (status : Nat) (body : String) : APIGatewayProxyResponse × Option GoError :=
  ({ StatusCode := status, Body := body, Headers := [] }, none)

/-- Modelled from the spec: `ServerError` is not among the sources. §6 and §7 say a store
failure or exhausted retries are surfaced as status 500; the body is left to `Env`. -/
def ServerError (env : Env) (err : GoError) : APIGatewayProxyResponse × Option GoError :=
  ({ StatusCode := 500, Body := env.serverErrorBody err, Headers := [] }, none)

/-! ## `adapters/handlers/utils.go` -/

/-- The function `unicode.ToLower` on one rune: on ASCII it moves `A`..`Z` to `a`..`z` and
leaves the rest, outside ASCII it is the table lookup `env.unicodeLower`. -/
def lowerRune (env : Env) (c : Char) : Char :=
  if c.toNat < 128 then c.toLower else env.unicodeLower c

/-- The function `strings.ToLower`: `unicode.ToLower` on every rune. -/
def ToLower (env : Env) (s : String) : String :=
  String.mk (s.toList.map (lowerRune env))

/-- The function `strings.HasPrefix`. -/
def HasPrefix (s pre : String) : Bool := pre.toList.isPrefixOf s.toList

/-- The slice `suspiciousPatterns` of `IsMaliciousURL`. -/
def suspiciousPatterns : List String :=
  ["javascript:", "data:", "file:", "vbscript:", "about:"]

/-- Function `IsMaliciousURL`. -/
def IsMaliciousURL (env : Env) (url : String) : Bool :=
  suspiciousPatterns.any (fun pattern => HasPrefix (ToLower env url) pattern)

/-- A change of ASCII letter case on one rune: `c'` is `c`, or `c` with its letter moved
to upper or to lower case (`Char.toUpper` and `Char.toLower` move only `a`..`z` and
`A`..`Z`). -/
def CaseChange (c c' : Char) : Prop :=
  c' = c ∨ c' = c.toUpper ∨ c' = c.toLower

/-- The string `u'` is `u` up to changes of ASCII letter case, rune by rune. -/
def CaseVariant (u u' : String) : Prop :=
  List.Forall₂ CaseChange u.toList u'.toList

/-! ## `adapters/handlers/generate.go` -/

/-- The constant `charset` of `GenerateShortURLID`. -/
def charset : String := "abcdefghijklmnopqrstuvwxyzABCDEFGHIJKLMNOPQRSTUVWXYZ0123456789"

/-- The byte `charset[i]`. -/
def charsetAt (i : Fin 62) : Char := charset.toList.get (Fin.cast (by decide) i)

/-- The loop of `GenerateShortURLID` for `length` more characters, from the positions `r` in
the random source and `c` in the clock: a failed draw falls back to
`time.Now().UnixNano() % 62`. Returns the characters and the positions afterwards. -/
def genChars (env : Env) : Nat → Nat → Nat → List Char × Nat × Nat
  | 0, r, c => ([], r, c)
  | length + 1, r, c =>
    match env.rand r with
    | some charIndex =>
      let rest := genChars env length (r + 1) c
      (charsetAt charIndex :: rest.1, rest.2)
    | none =>
      let charIndex : Fin 62 := ⟨env.clock c % 62, Nat.mod_lt _ (by decide)⟩
      let rest := genChars env length (r + 1) (c + 1)
      (charsetAt charIndex :: rest.1, rest.2)

/-- How many of the `k` draws from position `r` of the random source fail: the number of
clock readings the loop of `GenerateShortURLID` has taken before its `k`-th character. -/
def failedDraws (env : Env) (r k : Nat) : Nat :=
  (List.range k).countP (fun j => (env.rand (r + j)).isNone)

/-- Function `GenerateShortURLID`. -/
def GenerateShortURLID {σ κ : Type} (env : Env) (length : Nat) (w : World σ κ) :
    String × World σ κ :=
  let g := genChars env length w.randPos w.clockPos
  (String.mk g.1,
   World.log (Event.generate (String.mk g.1)) { w with randPos := g.2.1, clockPos := g.2.2 })

/-- The link an iteration of the retry loop of `CreateShortLink` builds in the world `w`:
a fresh identifier first, then the clock for `CreatedAt`. -/
def attemptLink {σ κ : Type} (env : Env) (long : String) (w : World σ κ) : Link :=
  { Id := (GenerateShortURLID env ShortIDLength w).1
    OriginalURL := long
    CreatedAt := env.clock (GenerateShortURLID env ShortIDLength w).2.clockPos
    Stats := [] }

/-- The world in which that iteration calls `linkService.Create`. -/
def attemptWorld {σ κ : Type} (env : Env) (w : World σ κ) : World σ κ :=
  { (GenerateShortURLID env ShortIDLength w).2 with
    clockPos := (GenerateShortURLID env ShortIDLength w).2.clockPos + 1 }

/-- The loop `for i := 0; i < config.MaxRetries; i++` of `CreateShortLink` with `n`
iterations left, carrying `link` and `createErr`. -/
def retryLoop {σ κ : Type} (P : LinkPort σ) (env : Env) (long : String) :
    Nat → Link × Option GoError → World σ κ → (Link × Option GoError) × World σ κ
  | 0, acc, w => (acc, w)
  | n + 1, _, w =>
    let link := attemptLink env long w
    let r := LinkService.Create P link (attemptWorld env w)
    match r.err with
    | none => ((link, none), r.state)
    | some createErr => retryLoop P env long n (link, some createErr) r.state

/-- The world after an iteration of the retry loop whose create fails at the port `P`: an
identifier has been generated, the clock read, the create called, and the store is as the
failed call left it. -/
def failedWorld {σ κ : Type} (P : LinkPort σ) (env : Env) (long : String) (w : World σ κ) :
    World σ κ :=
  World.log (Event.storeCreate (attemptLink env long w))
    { attemptWorld env w with store := (P.Create (attemptLink env long w) w.store).state }

/-- The world after an iteration of the retry loop whose create succeeds at the port `P`:
the store as the create left it, and the goroutine that fills the cache started. -/
def successWorld {σ κ : Type} (P : LinkPort σ) (env : Env) (long : String) (w : World σ κ) :
    World σ κ :=
  (LinkService.Create P (attemptLink env long w) (attemptWorld env w)).state

/-- The world after `k` iterations of the retry loop whose creates all fail at `P`. -/
def afterFailures {σ κ : Type} (P : LinkPort σ) (env : Env) (long : String) :
    Nat → World σ κ → World σ κ
  | 0, w => w
  | k + 1, w => afterFailures P env long k (failedWorld P env long w)

/-- Pair a handler's `(response, error)` with the world it leaves. -/
def answer {σ κ : Type} (r : APIGatewayProxyResponse × Option GoError) (w : World σ κ) :
    Ret APIGatewayProxyResponse (World σ κ) :=
  { val := r.1, err := r.2, state := w }

/-- Method `GenerateLinkFunctionHandler.CreateShortLink` on the request body `body`. -/
def CreateShortLink {σ κ : Type} (P : LinkPort σ) (env : Env) (body : String) (w : World σ κ) :
    Ret APIGatewayProxyResponse (World σ κ) :=
  match env.unmarshalBody body with
  | Except.error _ => answer (ClientError 400 "Invalid JSON") w
  | Except.ok long =>
    if long = "" then answer (ClientError 400 "URL cannot be empty") w
    else if long.utf8ByteSize < MinURLLength then
      answer (ClientError 400 ("URL must be at least " ++ toString MinURLLength ++ " characters long")) w
    else if !env.IsValidLink long then answer (ClientError 400 "Invalid URL format") w
    else if IsMaliciousURL env long then
      answer (ClientError 400 "URL contains malicious patterns") w
    else
      let out := retryLoop P env long MaxRetries (Link.zero, none) w
      match out.1.2 with
      | some createErr => answer (ServerError env createErr) out.2
      | none =>
        match env.marshalLink out.1.1 with
        | Except.error err => answer (ServerError env err) out.2
        | Except.ok js =>
          answer ({ StatusCode := 201, Body := js, Headers := [("Content-Type", "application/json")] },
                  none)
            (World.spawn (Task.notify out.1.1) out.2)

/-- The checks of `CreateShortLink` that precede the retry loop all pass for `body`,
which decodes to `long`. -/
def PassesValidation (env : Env) (body long : String) : Prop :=
  env.unmarshalBody body = Except.ok long ∧ long ≠ "" ∧ ¬ long.utf8ByteSize < MinURLLength ∧
    env.IsValidLink long = true ∧ IsMaliciousURL env long = false

/-! ## `adapters/handlers/stats.go` -/

/-- The goroutine `go func(index int)` of `Stats`: fetch the stats of `links[index]` and, on
success, store them in `links[index].Stats` under the mutex; on failure only log.
`fetch` is `statsService.GetStatsByLinkID`. -/
def statsWorker (fetch : String → Except GoError (List Stats)) (index : Nat)
    (links : List Link) : List Link :=
  match links.get? index with
  | none => links
  | some l =>
    match fetch l.Id with
    | Except.error _ => links
    | Except.ok stats => links.set index { l with Stats := stats }

/-- The fan-out of `Stats` up to `wg.Wait()`: the goroutines take effect one after the
other in the order `order`, a list of their indices. -/
def joinStats (fetch : String → Except GoError (List Stats)) (order : List Nat)
    (links : List Link) : List Link :=
  order.foldl (fun acc index => statsWorker fetch index acc) links

/-- Method `StatsFunctionHandler.Stats`, the goroutines completing in the order `order`. -/
def StatsHandler {σ κ : Type} (P : LinkPort σ) (env : Env)
    (fetch : String → Except GoError (List Stats)) (order : List Nat) (w : World σ κ) :
    Ret APIGatewayProxyResponse (World σ κ) :=
  let r := LinkService.GetAll P w
  match r.err with
  | some err => answer (ServerError env err) r.state
  | none =>
    match env.marshalLinks (joinStats fetch order r.val) with
    | Except.error err => answer (ServerError env err) r.state
    | Except.ok jsonResponse =>
      answer ({ StatusCode := 200, Body := jsonResponse
                Headers := [("Content-Type", "application/json")] }, none) r.state

/-- What a successful goroutine of `Stats` makes of a link: its stats replaced by the ones
fetched for its id; a link whose fetch fails stays as listed. -/
def withFetched (fetch : String → Except GoError (List Stats)) (l : Link) : Link :=
  match fetch l.Id with
  | Except.ok stats => { l with Stats := stats }
  | Except.error _ => l

/-- The joined listing in the words of the spec: every link as listed, carrying the stats
fetched for its own id, or empty stats when that fetch failed. -/
def specJoin (fetch : String → Except GoError (List Stats)) (links : List Link) : List Link :=
  links.map (fun l =>
    { l with Stats := match fetch l.Id with
                      | Except.ok stats => stats
                      | Except.error _ => [] })

/-! ## `adapters/handlers/redirect.go` and the rest of `utils.go` -/

/-- The struct `events.APIGatewayV2HTTPRequest`, with the fields the handlers read. The two
maps are association lists; a missing key reads as the empty string. -/
structure APIGatewayV2HTTPRequest where
  Body : String
  RawPath : String
  Headers : List (String × String)
  PathParameters : List (String × String)

/-- The map read `m[key]` on a `map[string]string`. -/
def mapGet (m : List (String × String)) (key : String) : String := (m.lookup key).getD ""

/-- The call `strings.Split(s, "/")` on the characters of `s`: one more piece than there are
slashes, so never empty. -/
def splitSlash : List Char → List (List Char)
  | [] => [[]]
  | c :: cs =>
    if c = '/' then [] :: splitSlash cs
    else
      match splitSlash cs with
      | [] => [[c]]
      | seg :: rest => (c :: seg) :: rest

/-- The function `strings.Contains`. -/
def Contains (s substr : String) : Bool :=
  s.toList.tails.any (fun t => substr.toList.isPrefixOf t)

def InstagramUserAgent : String := "Instagram"
def TwitterUserAgent : String := "Twitter"
def YouTubeUserAgent : String := "YouTube"
def InstagramReferer : String := "instagram.com"
def TwitterReferer : String := "twitter.com"
def YouTubeReferer : String := "youtube.com"

/-- Function `ExtractPlatformFromRequest`. -/
def ExtractPlatformFromRequest (env : Env) (req : APIGatewayV2HTTPRequest) : Platform :=
  let userAgent := ToLower env (mapGet req.Headers "user-agent")
  if Contains userAgent (ToLower env InstagramUserAgent) then Platform.Instagram
  else if Contains userAgent (ToLower env TwitterUserAgent) then Platform.Twitter
  else if Contains userAgent (ToLower env YouTubeUserAgent) then Platform.YouTube
  else
    let referer := ToLower env (mapGet req.Headers "referer")
    if Contains referer InstagramReferer then Platform.Instagram
    else if Contains referer TwitterReferer then Platform.Twitter
    else if Contains referer YouTubeReferer then Platform.YouTube
    else Platform.Unknown

/-- The pieces `pathSegments` of `Redirect`. -/
def pathSegments (req : APIGatewayV2HTTPRequest) : List String :=
  (splitSlash req.RawPath.toList).map String.mk

/-- The last piece, `shortLinkKey` of `Redirect`. -/
def shortLinkKey (req : APIGatewayV2HTTPRequest) : String :=
  (pathSegments req).getLastD ""

/-- Method `RedirectFunctionHandler.Redirect`. Any error of `GetOriginalURL`, a nil result and
an empty URL all take the one 404 return. -/
def Redirect {σ κ : Type} (P : LinkPort σ) (C : Cache κ) (env : Env)
    (req : APIGatewayV2HTTPRequest) (w : World σ κ) : Ret APIGatewayProxyResponse (World σ κ) :=
  if (pathSegments req).length < 2 then answer (ClientError 400 "Invalid URL path") w
  else if shortLinkKey req = "" then answer (ClientError 400 "Short link key cannot be empty") w
  else
    let r := LinkService.GetOriginalURL P C (shortLinkKey req) w
    match r.err, r.val with
    | none, some longLink =>
      if longLink = "" then answer (ClientError 404 "Link not found") r.state
      else
        answer ({ StatusCode := 301, Body := ""
                  Headers := [("Location", longLink), ("Cache-Control", "public, max-age=300")] },
                none)
          (World.spawn (Task.recordStats (shortLinkKey req) (ExtractPlatformFromRequest env req))
            r.state)
    | _, _ => answer (ClientError 404 "Link not found") r.state

/-! ## `adapters/handlers/stats.go`: per-link stats -/

/-- The statement `platformCounts[name]++` on a `map[string]int` kept as an association
list: an absent key starts from 0. -/
def increment (name : String) : List (String × Nat) → List (String × Nat)
  | [] => [(name, 1)]
  | (k, n) :: rest => if k = name then (k, n + 1) :: rest else (k, n) :: increment name rest

/-- The loop `for _, stat := range stats` of `GetLinkStats`, from the empty map.
`platformString` is the method `Platform.String` of package `domain`, which is not among
the sources and is taken as it is given. -/
def platformCounts (platformString : Platform → String) (stats : List Stats) :
    List (String × Nat) :=
  stats.foldl (fun m stat => increment (platformString stat.Platform) m) []

/-- The map `response` of `GetLinkStats`. -/
structure LinkStatsResponse where
  link_id : String
  total_clicks : Nat
  platform_counts : List (String × Nat)
  details : List Stats
  deriving DecidableEq, Repr

/-- What `GetLinkStats` takes from outside the sources: `GetStatsByLinkID` of the stats
service, `Platform.String`, and `json.Marshal` of the response map. -/
structure StatsEnv where
  GetStatsByLinkID : String → Except GoError (List Stats)
  platformString : Platform → String
  marshalResponse : LinkStatsResponse → Except GoError String

/-- The response map `GetLinkStats` builds from the fetched records. -/
def linkStatsResponse (senv : StatsEnv) (linkID : String) (stats : List Stats) :
    LinkStatsResponse :=
  { link_id := linkID
    total_clicks := stats.length
    platform_counts := platformCounts senv.platformString stats
    details := stats }

/-- Method `StatsFunctionHandler.GetLinkStats`. -/
def GetLinkStats {σ κ : Type} (env : Env) (senv : StatsEnv) (req : APIGatewayV2HTTPRequest)
    (w : World σ κ) : Ret APIGatewayProxyResponse (World σ κ) :=
  let linkID := mapGet req.PathParameters "id"
  if linkID = "" then answer (ClientError 400 "Link ID is required") w
  else
    match senv.GetStatsByLinkID linkID with
    | Except.error err => answer (ServerError env err) w
    | Except.ok stats =>
      match senv.marshalResponse (linkStatsResponse senv linkID stats) with
      | Except.error err => answer (ServerError env err) w
      | Except.ok jsonResponse =>
        answer ({ StatusCode := 200, Body := jsonResponse
                  Headers := [("Content-Type", "application/json")] }, none) w

/-- The value of `platform_counts` at `name`: 0 when the key is absent. -/
def countAt (m : List (String × Nat)) (name : String) : Nat := (m.lookup name).getD 0

/-! ## Concrete scenarios -/

namespace Scenario

/-- An environment in which every random draw is 0 (so every identifier is "aaaaaaaa"),
the clock counts its readings, the request body is the URL itself, every URL is
well-formed, and JSON encoding gives the identifier of a link. -/
def env : Env :=
  { rand := fun _ => some 0
    clock := fun n => n
    unicodeLower := fun c => c
    unmarshalBody := fun body => Except.ok body
    marshalLink := fun l => Except.ok l.Id
    marshalLinks := fun ls => Except.ok (String.intercalate "," (ls.map Link.Id))
    IsValidLink := fun _ => true
    serverErrorBody := fun _ => "Internal Server Error" }

/-- The URL of `generate_link_test.go`. -/
def url : String := "https://example.com/link1"

/-- A DynamoDB client whose backend cannot be reached: every call returns a transport
error and changes nothing. -/
def downClient : DynamoClient Unit :=
  { PutItemIfAbsent := fun _ _ => { val := (), err := some (GoError.leaf "RequestError: send request failed"), state := () }
    GetItem := fun _ _ => { val := none, err := some (GoError.leaf "RequestError: send request failed"), state := () }
    DeleteItem := fun _ _ => { val := (), err := some (GoError.leaf "RequestError: send request failed"), state := () }
    ScanAll := fun _ => { val := [], err := some (GoError.leaf "RequestError: send request failed"), state := () } }

/-- A world on the unreachable backend with a fresh mock cache. -/
def downWorld : World Unit ImprovedMockCache :=
  { store := (), cache := ImprovedMockCache.new, pending := [], trace := [], randPos := 0, clockPos := 0 }

/-- A stored link with the only identifier `env` can generate. -/
def taken : Link :=
  { Id := "aaaaaaaa", OriginalURL := "https://example.com/already-there", CreatedAt := 7, Stats := [] }

/-- A world whose table holds `taken`, with a fresh mock cache. -/
def takenWorld : World Table ImprovedMockCache :=
  { store := [taken], cache := ImprovedMockCache.new, pending := [], trace := [], randPos := 0, clockPos := 0 }

/-- A world whose table holds links under both identifiers `retryEnv` can generate. -/
def twoTakenWorld : World Table ImprovedMockCache :=
  { store := [taken, { taken with Id := "bbbbbbbb" }], cache := ImprovedMockCache.new
    pending := [], trace := [], randPos := 0, clockPos := 0 }

/-- A world with an empty table and a fresh mock cache. -/
def emptyWorld : World Table ImprovedMockCache :=
  { store := [], cache := ImprovedMockCache.new, pending := [], trace := [], randPos := 0, clockPos := 0 }

/-- The world of `TestCacheHitScenario`: an empty table, the cache holding the entry. -/
def hitWorld : World Table ImprovedMockCache :=
  { store := []
    cache := { ImprovedMockCache.new with data := [("test123", "https://example.com/long-url")] }
    pending := [], trace := [], randPos := 0, clockPos := 0 }

/-- The world of `TestCacheMissScenario`: the table holds the link, the cache is empty. -/
def missWorld : World Table ImprovedMockCache :=
  { store := [{ Id := "test456", OriginalURL := "https://example.com/another-url", CreatedAt := 0, Stats := [] }]
    cache := ImprovedMockCache.new, pending := [], trace := [], randPos := 0, clockPos := 0 }

/-- The world of `TestCacheFailureHandling`: the table holds the link, the cache fails. -/
def failWorld : World Table ImprovedMockCache :=
  { store := [{ Id := "fail123", OriginalURL := "https://example.com/fail-test", CreatedAt := 0, Stats := [] }]
    cache := ImprovedMockCache.SetFailureMode true ImprovedMockCache.new
    pending := [], trace := [], randPos := 0, clockPos := 0 }

/-- The world of `TestDeleteLinkRemovesFromCache`: link in the table and in the cache. -/
def deleteWorld : World Table ImprovedMockCache :=
  { store := [{ Id := "delete123", OriginalURL := "https://example.com/to-delete", CreatedAt := 0, Stats := [] }]
    cache := { ImprovedMockCache.new with data := [("delete123", "https://example.com/to-delete")] }
    pending := [], trace := [], randPos := 0, clockPos := 0 }

/-- The link of `TestCreateLinkPopulatesCache`. -/
def newLink : Link :=
  { Id := "newlink789", OriginalURL := "https://example.com/new-url", CreatedAt := 0, Stats := [] }

/-- A world whose table lists three links without stats. -/
def listWorld : World Table ImprovedMockCache :=
  { store := [{ Id := "linkAAAA", OriginalURL := "https://example.com/a", CreatedAt := 1, Stats := [] },
              { Id := "linkBBBB", OriginalURL := "https://example.com/b", CreatedAt := 2, Stats := [] },
              { Id := "linkCCCC", OriginalURL := "https://example.com/c", CreatedAt := 3, Stats := [] }]
    cache := ImprovedMockCache.new, pending := [], trace := [], randPos := 0, clockPos := 0 }

/-- A stats fetch that fails for "linkBBBB" and returns one click for any other id. -/
def statsFetch (id : String) : Except GoError (List Stats) :=
  if id = "linkBBBB" then Except.error (GoError.leaf "failed to query stats")
  else Except.ok [{ Id := "s-" ++ id, LinkID := id, CreatedAt := 9, Platform := Platform.Twitter }]

/-- The environment `env` with a random source that fails on every draw. -/
def noRandEnv : Env := { env with rand := fun _ => none }

/-- The environment `env` with a random source whose draws at even positions fail and
whose draws at odd positions are 1. -/
def halfRandEnv : Env := { env with rand := fun n => if n % 2 = 0 then none else some 1 }

/-- The environment `env` with a helper `IsValidLink` that rejects every URL. -/
def strictEnv : Env := { env with IsValidLink := fun _ => false }

/-- The environment `env` with a random source whose first eight draws are 0 and whose
later draws are 1: the first identifier is "aaaaaaaa", the following ones "bbbbbbbb". -/
def retryEnv : Env := { env with rand := fun n => if n < 8 then some 0 else some 1 }

/-- A redirect request for the key "abc12345". -/
def redirectReq : APIGatewayV2HTTPRequest :=
  { Body := "", RawPath := "/abc12345", Headers := [("user-agent", "Twitter/9.0")]
    PathParameters := [] }

/-- A stats service that knows three clicks on "linkAAAA", two from Twitter and one from
Instagram, and nothing about other ids; platforms render as their names. -/
def statsEnv : StatsEnv :=
  { GetStatsByLinkID := fun id =>
      if id = "linkAAAA" then
        Except.ok [{ Id := "s1", LinkID := id, CreatedAt := 1, Platform := Platform.Twitter },
                   { Id := "s2", LinkID := id, CreatedAt := 2, Platform := Platform.Instagram },
                   { Id := "s3", LinkID := id, CreatedAt := 3, Platform := Platform.Twitter }]
      else Except.ok []
    platformString := fun p =>
      match p with
      | Platform.Instagram => "Instagram"
      | Platform.Twitter => "Twitter"
      | Platform.YouTube => "YouTube"
      | Platform.Unknown => "Unknown"
    marshalResponse := fun r => Except.ok r.link_id }

/-- A per-link stats request for "linkAAAA". -/
def statsReq : APIGatewayV2HTTPRequest :=
  { Body := "", RawPath := "/stats/linkAAAA", Headers := [], PathParameters := [("id", "linkAAAA")] }

/-- The string "javascript:alert(1)" written with the long s, U+017F, which
`unicode.ToLower` leaves as it is and `unicode.ToUpper` sends to `S`. -/
def longSUrl : String := "java\u017fcript:alert(1)"

/-- The function `unicode.ToUpper` on the runes of `longSUrl`: U+017F goes to `S`, the
ASCII letters to their capitals. -/
def upperRune (c : Char) : Char := if c = Char.ofNat 383 then 'S' else c.toUpper

/-- A URL of 14 characters and 15 bytes: the e with acute accent takes two bytes. -/
def accentUrl : String := "http://\u00e9.fr/ab"

end Scenario

/-! ## Reading the trace -/

/-- Whether an event is a call of the store's create. -/
def Event.isStoreCreate : Event → Bool
  | Event.storeCreate _ => true
  | _ => false

/-- Whether an event is a call of `GenerateShortURLID`. -/
def Event.isGenerate : Event → Bool
  | Event.generate _ => true
  | _ => false

/-! # Theorems -/

section Service

variable {σ κ : Type}

/-! ## Helper lemmas: the table -/

theorem Table.repo_get (id : String) (t : Table) :
    Table.repo.Get id t = { val := (t.lookup id).getD Link.zero, err := none, state := t } := rfl

theorem Table.repo_delete (id : String) (t : Table) :
    Table.repo.Delete id t =
      { val := (), err := none, state := t.filter (fun l => !(l.Id == id)) } := rfl

theorem Table.repo_create_absent (link : Link) (t : Table) (h : t.hasId link.Id = false) :
    Table.repo.Create link t = { val := (), err := none, state := t ++ [link] } := by
  simp [Table.repo, LinkRepository.port, LinkRepository.Create, Table.client, Table.putIfAbsent, h]

theorem Table.repo_create_present (link : Link) (t : Table) (h : t.hasId link.Id = true) :
    Table.repo.Create link t =
      { val := ()
        err := some (GoError.wrap ("link with id '" ++ link.Id ++ "' already exists: ")
                (GoError.condCheckFailed Table.condFailedMsg))
        state := t } := by
  simp [Table.repo, LinkRepository.port, LinkRepository.Create, Table.client, Table.putIfAbsent, h,
    GoError.asCondCheckFailed]

theorem Table.lookup_eq_none_of_hasId_false (t : Table) (id : String) (h : t.hasId id = false) :
    t.lookup id = none := by
  induction t with
  | nil => rfl
  | cons a t ih =>
    simp only [Table.hasId, List.any_cons, Bool.or_eq_false_iff] at h
    simp only [Table.lookup, List.find?_cons, h.1]
    exact ih h.2

theorem Table.lookup_append_fresh (t : Table) (link : Link) (h : t.hasId link.Id = false) :
    Table.lookup (t ++ [link]) link.Id = some link := by
  have h0 := Table.lookup_eq_none_of_hasId_false t link.Id h
  simp only [Table.lookup] at h0 ⊢
  simp [List.find?_append, h0]

theorem Table.lookup_filter_self (t : Table) (id : String) :
    Table.lookup (t.filter (fun l => !(l.Id == id))) id = none := by
  simp only [Table.lookup, List.find?_eq_none, List.mem_filter]
  intro l hl
  simpa using hl.2

/-! ## Helper lemmas: goroutines -/

theorem Task.run_store (C : Cache κ) (t : Task) (w : World σ κ) :
    (Task.run C t w).store = w.store := by
  cases t <;> rfl

theorem foldl_run_store (C : Cache κ) (ts : List Task) (w : World σ κ) :
    (ts.foldl (fun acc t => Task.run C t acc) w).store = w.store := by
  induction ts generalizing w with
  | nil => rfl
  | cons t ts ih => rw [List.foldl_cons, ih, Task.run_store]

theorem runPending_store (C : Cache κ) (w : World σ κ) :
    (runPending C w).store = w.store := by
  unfold runPending
  rw [foldl_run_store]

/-! ## The link service -/

/-- C6. Cache hit fast path: when the cache `Get` for `id` returns a non-empty value and no
error, `GetOriginalURL` returns that value and no error; the only call it makes is that one
cache `Get` (the trace grows by exactly that event), the store is not called and keeps its
state whatever it holds, and no goroutine (so no cache `Set`) is started. -/
theorem cache_hit_fast_path (P : LinkPort σ) (C : Cache κ) (id : String) (w : World σ κ)
    (herr : (C.Get id w.cache).err = none) (hval : (C.Get id w.cache).val ≠ "") :
    (LinkService.GetOriginalURL P C id w).val = some (C.Get id w.cache).val ∧
    (LinkService.GetOriginalURL P C id w).err = none ∧
    (LinkService.GetOriginalURL P C id w).state.trace = w.trace ++ [Event.cacheGet id] ∧
    (LinkService.GetOriginalURL P C id w).state.store = w.store ∧
    (LinkService.GetOriginalURL P C id w).state.cache = (C.Get id w.cache).state ∧
    (LinkService.GetOriginalURL P C id w).state.pending = w.pending := by
  simp [LinkService.GetOriginalURL, herr, hval, World.log]

/-- C5. Degrade to store: when the cache `Get` returns an error or an empty value, and the
store `Get` returns without error a link whose `OriginalURL` is non-empty, `GetOriginalURL`
returns exactly that URL and no error. The outcome is the same expression whether the cache
failed or missed: the value, the error, the calls made after the cache `Get` (one store
`Get`) and the single goroutine started (the cache `Set` of the URL) depend on the store
only. -/
theorem degrade_to_store (P : LinkPort σ) (C : Cache κ) (id : String) (w : World σ κ)
    (hcache : (C.Get id w.cache).err ≠ none ∨ (C.Get id w.cache).val = "")
    (hstore : (P.Get id w.store).err = none)
    (hurl : (P.Get id w.store).val.OriginalURL ≠ "") :
    (LinkService.GetOriginalURL P C id w).val = some (P.Get id w.store).val.OriginalURL ∧
    (LinkService.GetOriginalURL P C id w).err = none ∧
    (LinkService.GetOriginalURL P C id w).state.store = (P.Get id w.store).state ∧
    (LinkService.GetOriginalURL P C id w).state.pending =
      w.pending ++ [Task.cacheSet id (P.Get id w.store).val.OriginalURL] ∧
    (LinkService.GetOriginalURL P C id w).state.trace =
      w.trace ++ [Event.cacheGet id, Event.storeGet id,
        Event.spawn (Task.cacheSet id (P.Get id w.store).val.OriginalURL)] := by
  have hc : ¬ ((C.Get id w.cache).err = none ∧ (C.Get id w.cache).val ≠ "") := by
    rintro ⟨h1, h2⟩
    rcases hcache with h | h
    · exact h h1
    · exact h2 h
  simp [LinkService.GetOriginalURL, hc, hstore, hurl, World.log, World.spawn]

/-- C4. Resolve of an unknown id: when the cache `Get` returns an error or an empty value,
and the store `Get` returns without error a link whose `OriginalURL` is empty (which is how
`LinkRepository.Get` reports an absent row), `GetOriginalURL` returns a nil URL and the error
"link '<id>' not found or has no URL"; it starts no goroutine, so no cache `Set` is
scheduled, and the cache has only seen the `Get`. -/
theorem resolve_unknown_id (P : LinkPort σ) (C : Cache κ) (id : String) (w : World σ κ)
    (hcache : (C.Get id w.cache).err ≠ none ∨ (C.Get id w.cache).val = "")
    (hstore : (P.Get id w.store).err = none)
    (hurl : (P.Get id w.store).val.OriginalURL = "") :
    (LinkService.GetOriginalURL P C id w).val = none ∧
    (LinkService.GetOriginalURL P C id w).err =
      some (GoError.leaf ("link '" ++ id ++ "' not found or has no URL")) ∧
    (LinkService.GetOriginalURL P C id w).state.pending = w.pending ∧
    (LinkService.GetOriginalURL P C id w).state.cache = (C.Get id w.cache).state ∧
    (LinkService.GetOriginalURL P C id w).state.trace =
      w.trace ++ [Event.cacheGet id, Event.storeGet id] := by
  have hc : ¬ ((C.Get id w.cache).err = none ∧ (C.Get id w.cache).val ≠ "") := by
    rintro ⟨h1, h2⟩
    rcases hcache with h | h
    · exact h h1
    · exact h2 h
  simp [LinkService.GetOriginalURL, hc, hstore, hurl, World.log]

/-- C7. `LinkService.Delete` follows the store delete and nothing else: its error is nil
exactly when the store delete's is (a store error comes back wrapped); when the store delete
succeeded the goroutine that deletes the cache entry is started, after the store call in
the trace, and when it failed nothing is started. The cache is not touched before
`Delete` returns, and running the started goroutines against any cache, failing or not,
leaves the store as the delete left it. -/
theorem delete_follows_store (P : LinkPort σ) (C : Cache κ) (short : String) (w : World σ κ) :
    ((LinkService.Delete P short w).err = none ↔ (P.Delete short w.store).err = none) ∧
    (LinkService.Delete P short w).err =
      (P.Delete short w.store).err.map
        (GoError.wrap ("failed to delete short URL for identifier '" ++ short ++ "': ")) ∧
    (LinkService.Delete P short w).state.pending =
      (if (P.Delete short w.store).err = none then w.pending ++ [Task.cacheDelete short]
       else w.pending) ∧
    (LinkService.Delete P short w).state.trace =
      (if (P.Delete short w.store).err = none then
         w.trace ++ [Event.storeDelete short, Event.spawn (Task.cacheDelete short)]
       else w.trace ++ [Event.storeDelete short]) ∧
    (LinkService.Delete P short w).state.cache = w.cache ∧
    (runPending C (LinkService.Delete P short w).state).store = (P.Delete short w.store).state := by
  rw [runPending_store]
  cases h : (P.Delete short w.store).err <;>
    simp [LinkService.Delete, h, World.log, World.spawn]

/-- C8. Delete then resolve, on the links repository over a reachable table: `Delete`
returns no error, and in every later world whose store is as the delete left it and whose
cache has no usable entry for `id` (its `Get` fails or returns the empty string, as after
the invalidation has landed or the entry has expired), `GetOriginalURL` returns a nil URL
and the error "link '<id>' not found or has no URL". -/
theorem delete_then_resolve (C : Cache κ) (id : String) (w w' : World Table κ)
    (hstore : w'.store = (LinkService.Delete Table.repo id w).state.store)
    (hcache : (C.Get id w'.cache).err ≠ none ∨ (C.Get id w'.cache).val = "") :
    (LinkService.Delete Table.repo id w).err = none ∧
    (LinkService.GetOriginalURL Table.repo C id w').val = none ∧
    (LinkService.GetOriginalURL Table.repo C id w').err =
      some (GoError.leaf ("link '" ++ id ++ "' not found or has no URL")) := by
  have hc : ¬ ((C.Get id w'.cache).err = none ∧ (C.Get id w'.cache).val ≠ "") := by
    rintro ⟨h1, h2⟩
    rcases hcache with h | h
    · exact h h1
    · exact h2 h
  have hs : w'.store = w.store.filter (fun l => !(l.Id == id)) := by
    rw [hstore]
    simp [LinkService.Delete, Table.repo_delete, World.log, World.spawn]
  have hl : Table.lookup w'.store id = none := by
    rw [hs]; exact Table.lookup_filter_self _ _
  refine ⟨by simp [LinkService.Delete, Table.repo_delete], ?_, ?_⟩ <;>
    simp [LinkService.GetOriginalURL, hc, Table.repo_get, World.log, hl, Link.zero]

/-- C1. Create/resolve round trip, on the links repository over a reachable table and the
mock cache: for a link with a non-empty `OriginalURL` whose id is not in the table,
`Create` returns no error and starts the goroutine that sets the cache entry. Before that
goroutine has run, with no usable cache entry for the id, `GetOriginalURL` returns the
link's URL and no error, answered by the store. After it has run, `GetOriginalURL` again
returns the link's URL and no error, and when the cache is not in failure mode the answer
comes from the cache alone (the only call is the cache `Get`). -/
theorem create_resolve_round_trip (link : Link) (w : World Table ImprovedMockCache)
    (hurl : link.OriginalURL ≠ "") (hfresh : w.store.hasId link.Id = false)
    (hcold : (ImprovedMockCache.port.Get link.Id w.cache).err ≠ none ∨
      (ImprovedMockCache.port.Get link.Id w.cache).val = "") :
    (LinkService.Create Table.repo link w).err = none ∧
    (LinkService.Create Table.repo link w).state.pending =
      w.pending ++ [Task.cacheSet link.Id link.OriginalURL] ∧
    (LinkService.GetOriginalURL Table.repo ImprovedMockCache.port link.Id
      (LinkService.Create Table.repo link w).state).val = some link.OriginalURL ∧
    (LinkService.GetOriginalURL Table.repo ImprovedMockCache.port link.Id
      (LinkService.Create Table.repo link w).state).err = none ∧
    (LinkService.GetOriginalURL Table.repo ImprovedMockCache.port link.Id
      (LinkService.Create Table.repo link w).state).state.trace =
      (LinkService.Create Table.repo link w).state.trace ++
        [Event.cacheGet link.Id, Event.storeGet link.Id,
          Event.spawn (Task.cacheSet link.Id link.OriginalURL)] ∧
    (LinkService.GetOriginalURL Table.repo ImprovedMockCache.port link.Id
      (Task.run ImprovedMockCache.port (Task.cacheSet link.Id link.OriginalURL)
        (LinkService.Create Table.repo link w).state)).val = some link.OriginalURL ∧
    (LinkService.GetOriginalURL Table.repo ImprovedMockCache.port link.Id
      (Task.run ImprovedMockCache.port (Task.cacheSet link.Id link.OriginalURL)
        (LinkService.Create Table.repo link w).state)).err = none ∧
    (LinkService.GetOriginalURL Table.repo ImprovedMockCache.port link.Id
      (Task.run ImprovedMockCache.port (Task.cacheSet link.Id link.OriginalURL)
        (LinkService.Create Table.repo link w).state)).state.trace =
      (if w.cache.shouldFail then
        (LinkService.Create Table.repo link w).state.trace ++
          [Event.cacheSet link.Id link.OriginalURL, Event.cacheGet link.Id,
            Event.storeGet link.Id, Event.spawn (Task.cacheSet link.Id link.OriginalURL)]
       else
        (LinkService.Create Table.repo link w).state.trace ++
          [Event.cacheSet link.Id link.OriginalURL, Event.cacheGet link.Id]) := by
  have hc : ¬ ((ImprovedMockCache.port.Get link.Id w.cache).err = none ∧
      (ImprovedMockCache.port.Get link.Id w.cache).val ≠ "") := by
    rintro ⟨h1, h2⟩
    rcases hcold with h | h
    · exact h h1
    · exact h2 h
  have hl := Table.lookup_append_fresh w.store link hfresh
  have hcreate : LinkService.Create Table.repo link w =
      { val := (), err := none
        state := World.spawn (Task.cacheSet link.Id link.OriginalURL)
          (World.log (Event.storeCreate link) { w with store := w.store ++ [link] }) } := by
    simp [LinkService.Create, Table.repo_create_absent link w.store hfresh]
  rw [hcreate]
  refine ⟨rfl, rfl, ?_, ?_, ?_, ?_, ?_, ?_⟩
  · simp [LinkService.GetOriginalURL, World.spawn, World.log, hc, Table.repo_get, hl, hurl]
  · simp [LinkService.GetOriginalURL, World.spawn, World.log, hc, Table.repo_get, hl, hurl]
  · simp [LinkService.GetOriginalURL, World.spawn, World.log, hc, Table.repo_get, hl, hurl]
  all_goals
    cases hf : w.cache.shouldFail <;>
      simp [LinkService.GetOriginalURL, Task.run, World.spawn, World.log, Table.repo_get, hl, hurl,
        ImprovedMockCache.port, ImprovedMockCache.Get, ImprovedMockCache.Set,
        ImprovedMockCache.find, List.lookup, hf]

/-! ## The store -/

theorem Table.not_mem_ids_of_hasId_false (t : Table) (id : String) (h : t.hasId id = false) :
    id ∉ t.ids := by
  simp only [Table.hasId, List.any_eq_false, beq_iff_eq] at h
  simp only [Table.ids, List.mem_map, not_exists, not_and]
  intro l hl
  exact h l hl

theorem Table.create_state (l : Link) (t : Table) :
    (Table.repo.Create l t).state = if t.hasId l.Id then t else t ++ [l] := by
  cases h : t.hasId l.Id
  · simp [Table.repo_create_absent l t h]
  · simp [Table.repo_create_present l t h]

theorem Table.createAll_cons (t : Table) (l : Link) (links : List Link) :
    t.createAll (l :: links) = Table.createAll (Table.repo.Create l t).state links := rfl

/-- C10. Identifier uniqueness at the store, the table being a list of rows and create a put
guarded by the absence of the id: from a table with at most one row per id, every sequence
of creates leaves a table with at most one row per id; a row present before the sequence is
still the row found for its id afterwards (never overwritten); and a create whose id
is present returns the error "link with id '<id>' already exists" wrapping the failed
condition and leaves the whole table unchanged. -/
theorem identifier_uniqueness (t : Table) (links : List Link) (h : t.ids.Nodup) :
    (t.createAll links).ids.Nodup ∧
    (∀ id l0, t.lookup id = some l0 → (t.createAll links).lookup id = some l0) ∧
    (∀ l : Link, t.hasId l.Id = true →
      (Table.repo.Create l t).err =
        some (GoError.wrap ("link with id '" ++ l.Id ++ "' already exists: ")
          (GoError.condCheckFailed Table.condFailedMsg)) ∧
      (Table.repo.Create l t).state = t) := by
  refine ⟨?_, ?_, ?_⟩
  · induction links generalizing t with
    | nil => exact h
    | cons l links ih =>
      rw [Table.createAll_cons]
      apply ih
      rw [Table.create_state]
      cases hp : t.hasId l.Id
      · have hn := Table.not_mem_ids_of_hasId_false t l.Id hp
        simp only [Bool.false_eq_true, if_false, Table.ids, List.map_append, List.map_cons,
          List.map_nil]
        rw [List.nodup_append]
        refine ⟨h, List.nodup_singleton _, ?_⟩
        intro a ha hb
        rw [List.mem_singleton] at hb
        subst hb
        exact hn ha
      · simpa using h
  · induction links generalizing t with
    | nil => intro id l0 hl; exact hl
    | cons l links ih =>
      intro id l0 hl
      rw [Table.createAll_cons]
      have hstep : Table.lookup (Table.repo.Create l t).state id = some l0 := by
        rw [Table.create_state]
        cases hp : t.hasId l.Id
        · simp only [Table.lookup] at hl ⊢
          simp [List.find?_append, hl]
        · simpa using hl
      have hnd : (Table.ids (Table.repo.Create l t).state).Nodup := by
        rw [Table.create_state]
        cases hp : t.hasId l.Id
        · have hn := Table.not_mem_ids_of_hasId_false t l.Id hp
          simp only [Bool.false_eq_true, if_false, Table.ids, List.map_append, List.map_cons,
            List.map_nil]
          rw [List.nodup_append]
          refine ⟨h, List.nodup_singleton _, ?_⟩
          intro a ha hb
          rw [List.mem_singleton] at hb
          subst hb
          exact hn ha
        · simpa using h
      exact ih _ hnd id l0 hstep
  · intro l hl
    rw [Table.repo_create_present l t hl]
    exact ⟨rfl, rfl⟩

end Service

section Handlers

variable {σ κ : Type}

/-! ## Helper lemmas: the retry loop -/

theorem retryLoop_fail (P : LinkPort σ) (env : Env) (long : String) (n : Nat)
    (acc : Link × Option GoError) (w : World σ κ) (e : GoError)
    (h : (P.Create (attemptLink env long w) w.store).err = some e) :
    retryLoop P env long (n + 1) acc w =
      retryLoop P env long n
        (attemptLink env long w, some (GoError.wrap "failed to create short URL: " e))
        (failedWorld P env long w) := by
  have h2 : (P.Create (attemptLink env long w) (attemptWorld env w).store).err = some e := h
  rw [retryLoop]
  simp only [LinkService.Create, h2]
  rfl

theorem CreateShortLink_valid (P : LinkPort σ) (env : Env) (body long : String) (w : World σ κ)
    (hval : PassesValidation env body long) :
    CreateShortLink P env body w =
      match (retryLoop P env long MaxRetries (Link.zero, none) w).1.2 with
      | some createErr =>
        answer (ServerError env createErr) (retryLoop P env long MaxRetries (Link.zero, none) w).2
      | none =>
        match env.marshalLink (retryLoop P env long MaxRetries (Link.zero, none) w).1.1 with
        | Except.error err =>
          answer (ServerError env err) (retryLoop P env long MaxRetries (Link.zero, none) w).2
        | Except.ok js =>
          answer ({ StatusCode := 201, Body := js, Headers := [("Content-Type", "application/json")] },
                  none)
            (World.spawn (Task.notify (retryLoop P env long MaxRetries (Link.zero, none) w).1.1)
              (retryLoop P env long MaxRetries (Link.zero, none) w).2) := by
  obtain ⟨h1, h2, h3, h4, h5⟩ := hval
  simp only [CreateShortLink, h1, h2, h3, h4, h5, if_false, Bool.not_true, Bool.false_eq_true]

theorem LinkRepository.create_err {δ : Type} (cl : DynamoClient δ) (l : Link) (db : δ)
    (e : GoError) (h : (cl.PutItemIfAbsent l db).err = some e) :
    ((LinkRepository.port cl).Create l db).err =
      some (if e.asCondCheckFailed then
              GoError.wrap ("link with id '" ++ l.Id ++ "' already exists: ") e
            else GoError.wrap "failed to put item to DynamoDB: " e) := by
  cases hc : e.asCondCheckFailed <;>
    simp [LinkRepository.port, LinkRepository.Create, h, hc]

/-! ## Helper lemmas: the stats fan-out -/

theorem statsWorker_getElem? (fetch : String → Except GoError (List Stats)) (i j : Nat)
    (links : List Link) :
    (statsWorker fetch i links)[j]? =
      (links[j]?).map (fun l => if j = i then withFetched fetch l else l) := by
  unfold statsWorker
  rw [List.get?_eq_getElem?]
  cases hi : links[i]? with
  | none =>
    by_cases hji : j = i
    · subst hji; simp [hi]
    · simp [hji]
  | some l =>
    cases hf : fetch l.Id with
    | error e =>
      by_cases hji : j = i
      · subst hji; simp [hi, withFetched, hf]
      · simp [hji, hf]
    | ok stats =>
      by_cases hji : j = i
      · subst hji
        have hlt : j < links.length := by
          by_contra hge
          rw [List.getElem?_eq_none (Nat.le_of_not_lt hge)] at hi
          cases hi
        simp [hi, withFetched, hf, List.getElem?_set_self hlt]
      · have hij : i ≠ j := fun h => hji h.symm
        simp [hji, hf, List.getElem?_set_ne hij]

theorem joinStats_getElem? (fetch : String → Except GoError (List Stats)) (order : List Nat)
    (hnd : order.Nodup) (links : List Link) (j : Nat) :
    (joinStats fetch order links)[j]? =
      (links[j]?).map (fun l => if j ∈ order then withFetched fetch l else l) := by
  induction order generalizing links with
  | nil => simp [joinStats]
  | cons i rest ih =>
    have hi : i ∉ rest := (List.nodup_cons.mp hnd).1
    have hrest : rest.Nodup := (List.nodup_cons.mp hnd).2
    have hstep : joinStats fetch (i :: rest) links = joinStats fetch rest (statsWorker fetch i links) :=
      rfl
    rw [hstep, ih hrest, statsWorker_getElem?]
    cases links[j]? with
    | none => rfl
    | some l =>
      by_cases hji : j = i
      · subst hji
        simp [hi]
      · by_cases hjr : j ∈ rest <;> simp [hji, hjr]

theorem joinStats_perm (fetch : String → Except GoError (List Stats)) (order : List Nat)
    (links : List Link) (horder : order.Perm (List.range links.length)) :
    joinStats fetch order links = links.map (withFetched fetch) := by
  have hnd : order.Nodup := horder.nodup_iff.mpr (List.nodup_range _)
  apply List.ext_getElem?
  intro j
  rw [joinStats_getElem? fetch order hnd, List.getElem?_map]
  cases hj : links[j]? with
  | none => rfl
  | some l =>
    have hlt : j < links.length := by
      by_contra hge
      rw [List.getElem?_eq_none (Nat.le_of_not_lt hge)] at hj
      cases hj
    have hmem : j ∈ order := horder.mem_iff.mpr (List.mem_range.mpr hlt)
    simp [hmem]

theorem map_withFetched_eq_specJoin (fetch : String → Except GoError (List Stats))
    (links : List Link) (hfresh : ∀ l ∈ links, l.Stats = []) :
    links.map (withFetched fetch) = specJoin fetch links := by
  unfold specJoin
  apply List.map_congr_left
  intro l hl
  unfold withFetched
  cases hf : fetch l.Id with
  | error e =>
    have h0 := hfresh l hl
    cases l
    simp_all
  | ok stats => rfl

/-! ## The stats handler -/

/-- C9. Stats join tolerates partial failure: when the store lists `N` links without error,
each listed without stats (stats are not persisted with a link), then for every outcome of
the per-link fetches and every order in which the `N` goroutines take effect (any
permutation of their indices) the joined list is the same: the `N` links in their listed
order, each with the stats fetched for its own id, or with empty stats when its fetch
failed. When that list is JSON-encoded without error to `js`, `Stats` answers status 200
with body `js` and a nil error. -/
theorem stats_join_tolerates_failure (P : LinkPort σ) (env : Env)
    (fetch : String → Except GoError (List Stats)) (order : List Nat) (w : World σ κ)
    (js : String)
    (hall : (P.All w.store).err = none)
    (hfresh : ∀ l ∈ (P.All w.store).val, l.Stats = [])
    (horder : order.Perm (List.range (P.All w.store).val.length))
    (hjson : env.marshalLinks (specJoin fetch (P.All w.store).val) = Except.ok js) :
    joinStats fetch order (P.All w.store).val = specJoin fetch (P.All w.store).val ∧
    (specJoin fetch (P.All w.store).val).length = (P.All w.store).val.length ∧
    (StatsHandler P env fetch order w).val =
      { StatusCode := 200, Body := js, Headers := [("Content-Type", "application/json")] } ∧
    (StatsHandler P env fetch order w).err = none := by
  have hjoin : joinStats fetch order (P.All w.store).val = specJoin fetch (P.All w.store).val := by
    rw [joinStats_perm fetch order _ horder, map_withFetched_eq_specJoin fetch _ hfresh]
  refine ⟨hjoin, by simp [specJoin], ?_, ?_⟩ <;>
    simp [StatsHandler, LinkService.GetAll, hall, hjoin, hjson, answer]

end Handlers

section Generator

variable {σ κ : Type}

/-! ## Helper lemmas: the identifier generator -/

theorem genChars_length (env : Env) (n r c : Nat) : (genChars env n r c).1.length = n := by
  induction n generalizing r c with
  | zero => rfl
  | succ n ih =>
    unfold genChars
    cases env.rand r <;> simp [ih]

theorem charsetAt_mem (i : Fin 62) : charsetAt i ∈ charset.toList :=
  List.get_mem _ _ _

theorem genChars_mem (env : Env) (n r c : Nat) :
    ∀ ch ∈ (genChars env n r c).1, ch ∈ charset.toList := by
  induction n generalizing r c with
  | zero => intro ch h; cases h
  | succ n ih =>
    unfold genChars
    cases env.rand r with
    | none =>
      intro ch h
      rcases List.mem_cons.mp h with h | h
      · rw [h]; exact charsetAt_mem _
      · exact ih _ _ ch h
    | some i =>
      intro ch h
      rcases List.mem_cons.mp h with h | h
      · rw [h]; exact charsetAt_mem _
      · exact ih _ _ ch h

theorem charset_nodup : charset.toList.Nodup := by decide

theorem charsetAt_injective : Function.Injective charsetAt := by
  intro i j h
  have h2 := (List.nodup_iff_injective_get.mp charset_nodup) h
  exact Fin.cast_injective _ h2

theorem genChars_all_fail (env : Env) (hfail : ∀ n, env.rand n = none) (n r c : Nat) :
    genChars env n r c =
      ((List.range n).map (fun k => charsetAt ⟨env.clock (c + k) % 62, Nat.mod_lt _ (by decide)⟩),
        r + n, c + n) := by
  induction n generalizing r c with
  | zero => rfl
  | succ n ih =>
    unfold genChars
    rw [hfail r]
    simp only [ih, List.range_succ_eq_map, List.map_cons, List.map_map, Nat.add_zero]
    refine Prod.ext ?_ (Prod.ext ?_ ?_)
    · simp only [List.cons.injEq, true_and]
      apply List.map_congr_left
      intro k _
      have hk : c + 1 + k = c + (k + 1) := by omega
      simp only [Function.comp, Nat.succ_eq_add_one, hk]
    · simp only; omega
    · simp only; omega

/-! ## The identifier generator -/

/-- C11. Identifier shape: for every length and every behaviour of the random source and the
clock, `GenerateShortURLID` returns a string of exactly `length` characters, each a
character of `charset`; `charset` has exactly 62 characters, pairwise distinct and all
alphanumeric (so it is a-z, A-Z, 0-9); the draw-to-character map `charsetAt` is one-to-one
and reaches every character of `charset`; and a successful draw `i` contributes exactly
`charsetAt i`. -/
theorem generate_id_alphabet (env : Env) (length : Nat) (w : World σ κ) :
    (GenerateShortURLID env length w).1.length = length ∧
    (∀ ch ∈ (GenerateShortURLID env length w).1.toList, ch ∈ charset.toList) ∧
    charset.length = 62 ∧
    charset.toList.Nodup ∧
    (∀ ch ∈ charset.toList, ch.isAlphanum = true) ∧
    Function.Injective charsetAt ∧
    (∀ ch ∈ charset.toList, ∃ i, charsetAt i = ch) ∧
    (∀ n r c i, env.rand r = some i →
      (genChars env (n + 1) r c).1 = charsetAt i :: (genChars env n (r + 1) c).1) := by
  refine ⟨?_, ?_, by decide, charset_nodup, by decide, charsetAt_injective, ?_, ?_⟩
  · simp [GenerateShortURLID, String.length, genChars_length]
  · intro ch h
    exact genChars_mem env length w.randPos w.clockPos ch h
  · intro ch h
    obtain ⟨k, hk⟩ := List.mem_iff_get.mp h
    exact ⟨Fin.cast (by decide) k, by simpa [charsetAt] using hk⟩
  · intro n r c i h
    rw [genChars, h]

theorem failedDraws_succ (env : Env) (r k : Nat) :
    failedDraws env r (k + 1) =
      (if (env.rand r).isNone then 1 else 0) + failedDraws env (r + 1) k := by
  unfold failedDraws
  rw [List.range_succ_eq_map, List.countP_cons, List.countP_map]
  have hf : ((fun j => (env.rand (r + j)).isNone) ∘ Nat.succ) =
      (fun j => (env.rand (r + 1 + j)).isNone) := by
    funext j
    simp only [Function.comp, Nat.succ_eq_add_one]
    congr 2
    omega
  rw [hf]
  simp only [Nat.add_zero]
  omega

theorem genChars_positions (env : Env) (n : Nat) :
    ∀ r c, (genChars env n r c).2 = (r + n, c + failedDraws env r n) := by
  induction n with
  | zero => intro r c; rfl
  | succ n ih =>
    intro r c
    rw [failedDraws_succ]
    unfold genChars
    cases h : env.rand r with
    | none =>
      simp only [ih, Option.isNone_none, if_true]
      refine Prod.ext ?_ ?_ <;> simp only <;> omega
    | some i =>
      simp only [ih, Option.isNone_some, Bool.false_eq_true, if_false]
      refine Prod.ext ?_ ?_ <;> simp only <;> omega

theorem genChars_getElem? (env : Env) (n : Nat) :
    ∀ r c k, k < n → (genChars env n r c).1[k]? =
      some (match env.rand (r + k) with
        | some i => charsetAt i
        | none => charsetAt ⟨env.clock (c + failedDraws env r k) % 62,
            Nat.mod_lt _ (by decide)⟩) := by
  induction n with
  | zero => intro r c k hk; exact absurd hk (Nat.not_lt_zero k)
  | succ n ih =>
    intro r c k hk
    cases k with
    | zero =>
      unfold genChars
      cases h : env.rand r <;> simp [h, failedDraws]
    | succ k =>
      have hk' : k < n := Nat.lt_of_succ_lt_succ hk
      have hr : r + (k + 1) = r + 1 + k := by omega
      rw [failedDraws_succ, hr]
      unfold genChars
      cases h : env.rand r with
      | none =>
        simp only [List.getElem?_cons_succ, ih (r + 1) (c + 1) k hk', Option.isNone_none, if_true]
        have hc : c + 1 + failedDraws env (r + 1) k = c + (1 + failedDraws env (r + 1) k) := by
          omega
        simp only [hc]
      | some i =>
        simp only [List.getElem?_cons_succ, ih (r + 1) c k hk', Option.isNone_some,
          Bool.false_eq_true, if_false, Nat.zero_add]

/-- C12, as the code has it. Whatever the random source does, `GenerateShortURLID` returns
an identifier of the full length and no error (its only result is the string). Character by
character: a draw that fails is replaced by `charset[t % 62]`, `t` being the clock reading
taken at that moment (the clock has been read once for every earlier failed draw of the
call), and a draw `i` that succeeds gives `charset[i]`; the clock is read exactly once per
failed draw. So when every draw fails the identifier is read off the clock alone. -/
theorem generate_id_clock_fallback (env : Env) (length : Nat) (w : World σ κ) :
    (GenerateShortURLID env length w).1.length = length ∧
    (∀ k, k < length → env.rand (w.randPos + k) = none →
      (GenerateShortURLID env length w).1.toList[k]? =
        some (charsetAt ⟨env.clock (w.clockPos + failedDraws env w.randPos k) % 62,
          Nat.mod_lt _ (by decide)⟩)) ∧
    (∀ k i, k < length → env.rand (w.randPos + k) = some i →
      (GenerateShortURLID env length w).1.toList[k]? = some (charsetAt i)) ∧
    (GenerateShortURLID env length w).2.clockPos =
      w.clockPos + failedDraws env w.randPos length ∧
    ((∀ n, env.rand n = none) →
      (GenerateShortURLID env length w).1 =
        String.mk ((List.range length).map
          (fun k => charsetAt ⟨env.clock (w.clockPos + k) % 62, Nat.mod_lt _ (by decide)⟩))) := by
  refine ⟨?_, ?_, ?_, ?_, ?_⟩
  · simp [GenerateShortURLID, String.length, genChars_length]
  · intro k hk hnone
    have h := genChars_getElem? env length w.randPos w.clockPos k hk
    rw [hnone] at h
    exact h
  · intro k i hk hsome
    have h := genChars_getElem? env length w.randPos w.clockPos k hk
    rw [hsome] at h
    exact h
  · simp [GenerateShortURLID, World.log, genChars_positions]
  · intro hfail
    simp [GenerateShortURLID, genChars_all_fail env hfail]

end Generator

section CreateHandler

variable {σ κ : Type}

/-! ## Helper lemmas: the retry loop, continued -/

theorem retryLoop_ok (P : LinkPort σ) (env : Env) (long : String) (n : Nat)
    (acc : Link × Option GoError) (w : World σ κ)
    (h : (P.Create (attemptLink env long w) w.store).err = none) :
    retryLoop P env long (n + 1) acc w =
      ((attemptLink env long w, none), successWorld P env long w) := by
  have h2 : (P.Create (attemptLink env long w) (attemptWorld env w).store).err = none := h
  rw [retryLoop]
  simp only [successWorld, LinkService.Create, h2]

theorem successWorld_trace (P : LinkPort σ) (env : Env) (long : String) (w : World σ κ)
    (h : (P.Create (attemptLink env long w) w.store).err = none) :
    (successWorld P env long w).trace =
      w.trace ++ [Event.generate (attemptLink env long w).Id,
        Event.storeCreate (attemptLink env long w),
        Event.spawn (Task.cacheSet (attemptLink env long w).Id long)] := by
  have h2 : (P.Create (attemptLink env long w) (attemptWorld env w).store).err = none := h
  simp only [successWorld, LinkService.Create, h2]
  simp [World.spawn, World.log, attemptWorld, GenerateShortURLID, attemptLink]

theorem failedWorld_trace (P : LinkPort σ) (env : Env) (long : String) (w : World σ κ) :
    (failedWorld P env long w).trace =
      w.trace ++ [Event.generate (attemptLink env long w).Id,
        Event.storeCreate (attemptLink env long w)] := by
  simp [failedWorld, World.log, attemptWorld, GenerateShortURLID, attemptLink]

theorem retryLoop_trace (P : LinkPort σ) (env : Env) (long : String) (n : Nat) :
    ∀ (acc : Link × Option GoError) (w : World σ κ),
      ∃ suffix, (retryLoop P env long n acc w).2.trace = w.trace ++ suffix ∧
        ∀ link, Event.storeCreate link ∈ suffix → link.OriginalURL = long := by
  induction n with
  | zero =>
    intro acc w
    exact ⟨[], by simp [retryLoop], by intro link h; cases h⟩
  | succ n ih =>
    intro acc w
    cases h : (P.Create (attemptLink env long w) w.store).err with
    | none =>
      rw [retryLoop_ok P env long n acc w h]
      refine ⟨_, successWorld_trace P env long w h, ?_⟩
      intro link hl
      simp only [List.mem_cons, Event.storeCreate.injEq, List.mem_singleton, reduceCtorEq,
        false_or, or_false, List.not_mem_nil] at hl
      rw [hl]
      rfl
    | some e =>
      rw [retryLoop_fail P env long n acc w e h]
      obtain ⟨suffix, hs, hall⟩ := ih (attemptLink env long w,
        some (GoError.wrap "failed to create short URL: " e)) (failedWorld P env long w)
      refine ⟨[Event.generate (attemptLink env long w).Id,
        Event.storeCreate (attemptLink env long w)] ++ suffix, ?_, ?_⟩
      · rw [hs, failedWorld_trace, List.append_assoc]
      · intro link hl
        rcases List.mem_append.mp hl with hl | hl
        · simp only [List.mem_cons, Event.storeCreate.injEq, List.mem_singleton, reduceCtorEq,
            false_or, List.not_mem_nil, or_false] at hl
          rw [hl]
          rfl
        · exact hall link hl

/-! ## The create handler: validation -/

/-- C13. Validation precedes persistence: every store create that `CreateShortLink` issues
carries a URL that is non-empty, at least `MinURLLength` = 15 long by Go's `len`, accepted
by `IsValidLink` and not flagged by `IsMaliciousURL`; and a request whose body does not
decode, or whose URL fails one of these four checks, is answered with status 400 and a nil
error in an unchanged world: no identifier generated, no store or cache call, no goroutine. -/
theorem validation_precedes_persistence (P : LinkPort σ) (env : Env) (body : String)
    (w : World σ κ) :
    (∀ link, Event.storeCreate link ∈
        (CreateShortLink P env body w).state.trace.drop w.trace.length →
      link.OriginalURL ≠ "" ∧ MinURLLength ≤ link.OriginalURL.utf8ByteSize ∧
      env.IsValidLink link.OriginalURL = true ∧ IsMaliciousURL env link.OriginalURL = false) ∧
    ((¬ ∃ long, PassesValidation env body long) →
      (CreateShortLink P env body w).val.StatusCode = 400 ∧
      (CreateShortLink P env body w).err = none ∧
      (CreateShortLink P env body w).state = w) := by
  by_cases hv : ∃ long, PassesValidation env body long
  · obtain ⟨long, hval⟩ := hv
    refine ⟨?_, fun hn => absurd ⟨long, hval⟩ hn⟩
    intro link hl
    obtain ⟨suffix, hs, hall⟩ := retryLoop_trace P env long MaxRetries (Link.zero, none) w
    have hmem : Event.storeCreate link ∈ suffix := by
      rw [CreateShortLink_valid P env body long w hval] at hl
      cases h1 : (retryLoop P env long MaxRetries (Link.zero, none) w).1.2 with
      | some e =>
        simp only [h1, answer, hs, List.drop_left] at hl
        exact hl
      | none =>
        cases h2 : env.marshalLink (retryLoop P env long MaxRetries (Link.zero, none) w).1.1 with
        | error e =>
          simp only [h1, h2, answer, hs, List.drop_left] at hl
          exact hl
        | ok js =>
          simp only [h1, h2, answer, World.spawn, hs, List.append_assoc, List.drop_left] at hl
          rcases List.mem_append.mp hl with hl | hl
          · exact hl
          · simp at hl
    have hurl := hall link hmem
    obtain ⟨_, h2, h3, h4, h5⟩ := hval
    rw [hurl]
    exact ⟨h2, Nat.le_of_not_lt h3, h4, h5⟩
  · have hstate : (CreateShortLink P env body w).val.StatusCode = 400 ∧
        (CreateShortLink P env body w).err = none ∧
        (CreateShortLink P env body w).state = w := by
      unfold CreateShortLink
      cases hd : env.unmarshalBody body with
      | error e => simp [answer, ClientError]
      | ok long =>
        simp only []
        by_cases h2 : long = ""
        · simp [h2, answer, ClientError]
        · by_cases h3 : long.utf8ByteSize < MinURLLength
          · simp [h2, h3, answer, ClientError]
          · cases h4 : env.IsValidLink long
            · simp [h2, h3, h4, answer, ClientError]
            · cases h5 : IsMaliciousURL env long
              · exact absurd ⟨long, hd, h2, h3, h4, h5⟩ hv
              · simp [h2, h3, h4, h5, answer, ClientError]
    refine ⟨?_, fun _ => hstate⟩
    intro link hl
    rw [hstate.2.2] at hl
    simp at hl

theorem afterFailures_trace (P : LinkPort σ) (env : Env) (long : String) (k : Nat) :
    ∀ w : World σ κ, ∃ suffix, (afterFailures P env long k w).trace = w.trace ++ suffix ∧
      suffix.countP Event.isStoreCreate = k ∧ suffix.countP Event.isGenerate = k := by
  induction k with
  | zero => intro w; exact ⟨[], by simp [afterFailures], rfl, rfl⟩
  | succ k ih =>
    intro w
    obtain ⟨suffix, hs, h1, h2⟩ := ih (failedWorld P env long w)
    refine ⟨[Event.generate (attemptLink env long w).Id,
      Event.storeCreate (attemptLink env long w)] ++ suffix, ?_, ?_, ?_⟩
    · rw [afterFailures, hs, failedWorld_trace, List.append_assoc]
    · rw [List.countP_append, h1]
      simp [Event.isStoreCreate, Nat.add_comm]
    · rw [List.countP_append, h2]
      simp [Event.isGenerate, Nat.add_comm]

theorem retryLoop_success_at (P : LinkPort σ) (env : Env) (long : String) (k m : Nat) :
    ∀ (acc : Link × Option GoError) (w : World σ κ),
      (∀ j < k, (P.Create (attemptLink env long (afterFailures P env long j w))
        (afterFailures P env long j w).store).err ≠ none) →
      (P.Create (attemptLink env long (afterFailures P env long k w))
        (afterFailures P env long k w).store).err = none →
      retryLoop P env long (k + 1 + m) acc w =
        ((attemptLink env long (afterFailures P env long k w), none),
          successWorld P env long (afterFailures P env long k w)) := by
  induction k with
  | zero =>
    intro acc w _ hok
    have hn : 0 + 1 + m = m + 1 := by omega
    rw [hn]
    exact retryLoop_ok P env long m acc w hok
  | succ k ih =>
    intro acc w hfail hok
    have hn : k + 1 + 1 + m = (k + 1 + m) + 1 := by omega
    rw [hn]
    obtain ⟨e, he⟩ := Option.ne_none_iff_exists'.mp (hfail 0 (Nat.succ_pos k))
    rw [retryLoop_fail P env long (k + 1 + m) acc w e he]
    exact ih _ (failedWorld P env long w)
      (fun j hj => hfail (j + 1) (Nat.succ_lt_succ hj)) hok

/-! ## The create handler: outcomes -/

/-- C14, as the code has it. Minimum length in bytes: for every request whose URL has
fewer than `MinURLLength` = 15 bytes (Go's `len`), `CreateShortLink` answers status 400 with
a nil error in an unchanged world; the body is exactly "URL cannot be empty" when the URL
is empty, the empty check coming first, and exactly "URL must be at least 15 characters
long" otherwise. -/
theorem short_url_rejected (P : LinkPort σ) (env : Env) (body long : String) (w : World σ κ)
    (hdec : env.unmarshalBody body = Except.ok long)
    (hlen : long.utf8ByteSize < MinURLLength) :
    (CreateShortLink P env body w).val.StatusCode = 400 ∧
    (CreateShortLink P env body w).val.Body =
      (if long = "" then "URL cannot be empty"
       else "URL must be at least 15 characters long") ∧
    (CreateShortLink P env body w).err = none ∧
    (CreateShortLink P env body w).state = w := by
  have hmsg : "URL must be at least " ++ toString MinURLLength ++ " characters long" =
      "URL must be at least 15 characters long" := by decide
  by_cases h2 : long = "" <;>
    simp [CreateShortLink, hdec, h2, hlen, hmsg, answer, ClientError]

/-- C15. Successful create: for a request that passes validation, when the first `k`
store creates fail and the next one, still among the first `MaxRetries`, succeeds,
`CreateShortLink` answers 201 with a nil error and the JSON of the link of that attempt
(its encoding succeeding); the store is as that create left it; after that attempt's
generate and create the trace only has the two goroutines started (cache fill, notification),
so exactly `k + 1` identifiers were generated and `k + 1` creates attempted; the link's id
has `ShortIDLength` = 8 characters, all from `charset`, and its URL is the requested one. -/
theorem create_stops_at_first_success (P : LinkPort σ) (env : Env) (body long : String)
    (w : World σ κ) (k : Nat) (js : String)
    (hval : PassesValidation env body long) (hk : k < MaxRetries)
    (hfail : ∀ j < k, (P.Create (attemptLink env long (afterFailures P env long j w))
      (afterFailures P env long j w).store).err ≠ none)
    (hok : (P.Create (attemptLink env long (afterFailures P env long k w))
      (afterFailures P env long k w).store).err = none)
    (hjson : env.marshalLink (attemptLink env long (afterFailures P env long k w)) =
      Except.ok js) :
    (CreateShortLink P env body w).val =
      { StatusCode := 201, Body := js, Headers := [("Content-Type", "application/json")] } ∧
    (CreateShortLink P env body w).err = none ∧
    (CreateShortLink P env body w).state.store =
      (P.Create (attemptLink env long (afterFailures P env long k w))
        (afterFailures P env long k w).store).state ∧
    (CreateShortLink P env body w).state.trace =
      (afterFailures P env long k w).trace ++
        [Event.generate (attemptLink env long (afterFailures P env long k w)).Id,
          Event.storeCreate (attemptLink env long (afterFailures P env long k w)),
          Event.spawn (Task.cacheSet (attemptLink env long (afterFailures P env long k w)).Id long),
          Event.spawn (Task.notify (attemptLink env long (afterFailures P env long k w)))] ∧
    ((CreateShortLink P env body w).state.trace.drop w.trace.length).countP
      Event.isStoreCreate = k + 1 ∧
    ((CreateShortLink P env body w).state.trace.drop w.trace.length).countP
      Event.isGenerate = k + 1 ∧
    (attemptLink env long (afterFailures P env long k w)).Id.length = ShortIDLength ∧
    (∀ ch ∈ (attemptLink env long (afterFailures P env long k w)).Id.toList,
      ch ∈ charset.toList) ∧
    (attemptLink env long (afterFailures P env long k w)).OriginalURL = long := by
  obtain ⟨m, hm⟩ : ∃ m, MaxRetries = k + 1 + m := ⟨MaxRetries - (k + 1), by omega⟩
  have hloop := retryLoop_success_at P env long k m (Link.zero, none) w hfail hok
  rw [← hm] at hloop
  have hstrace := successWorld_trace P env long (afterFailures P env long k w) hok
  obtain ⟨suffix, hs, hc1, hc2⟩ := afterFailures_trace P env long k w
  have hfinal : CreateShortLink P env body w =
      answer ({ StatusCode := 201, Body := js, Headers := [("Content-Type", "application/json")] },
          none)
        (World.spawn (Task.notify (attemptLink env long (afterFailures P env long k w)))
          (successWorld P env long (afterFailures P env long k w))) := by
    rw [CreateShortLink_valid P env body long w hval, hloop]
    simp only [hjson]
  have htrace : (CreateShortLink P env body w).state.trace =
      (afterFailures P env long k w).trace ++
        [Event.generate (attemptLink env long (afterFailures P env long k w)).Id,
          Event.storeCreate (attemptLink env long (afterFailures P env long k w)),
          Event.spawn (Task.cacheSet (attemptLink env long (afterFailures P env long k w)).Id long),
          Event.spawn (Task.notify (attemptLink env long (afterFailures P env long k w)))] := by
    rw [hfinal]
    simp [answer, World.spawn, hstrace]
  have hok2 : (P.Create (attemptLink env long (afterFailures P env long k w))
      (attemptWorld env (afterFailures P env long k w)).store).err = none := hok
  refine ⟨by rw [hfinal]; rfl, by rw [hfinal]; rfl, ?_, htrace, ?_, ?_, ?_, ?_, rfl⟩
  · rw [hfinal]
    simp only [answer, World.spawn, successWorld, LinkService.Create, hok2]
    rfl
  · rw [htrace, hs, List.append_assoc, List.drop_left, List.countP_append, hc1]
    simp [Event.isStoreCreate]
  · rw [htrace, hs, List.append_assoc, List.drop_left, List.countP_append, hc2]
    simp [Event.isGenerate]
  · simp [attemptLink, GenerateShortURLID, String.length, genChars_length]
  · intro ch h
    exact genChars_mem env ShortIDLength _ _ ch h

/-- C16, as the code has it. For a request that passes validation, when the store accepts
the first create and the link's JSON encoding succeeds, `CreateShortLink` returns a nil Go
error and a response whose `StatusCode` is 201 (`http.StatusCreated`), with the JSON of the
link as body. -/
theorem create_answers_created (P : LinkPort σ) (env : Env) (body long : String)
    (w : World σ κ) (js : String)
    (hval : PassesValidation env body long)
    (hok : (P.Create (attemptLink env long w) w.store).err = none)
    (hjson : env.marshalLink (attemptLink env long w) = Except.ok js) :
    (CreateShortLink P env body w).err = none ∧
    (CreateShortLink P env body w).val.StatusCode = 201 ∧
    (CreateShortLink P env body w).val.Body = js := by
  have hloop : retryLoop P env long MaxRetries (Link.zero, none) w =
      ((attemptLink env long w, none), successWorld P env long w) :=
    retryLoop_ok P env long 2 (Link.zero, none) w hok
  rw [CreateShortLink_valid P env body long w hval, hloop]
  simp only [hjson]
  exact ⟨rfl, rfl, rfl⟩

end CreateHandler

section RetryExhausted

variable {σ κ κ' δ : Type}

/-! ## Helper lemmas: a retry loop whose creates all fail -/

theorem retryLoop_all_fail (P : LinkPort σ) (env : Env) (long : String) (n : Nat) :
    ∀ (acc : Link × Option GoError) (w : World σ κ),
      (∀ j < n + 1, (P.Create (attemptLink env long (afterFailures P env long j w))
        (afterFailures P env long j w).store).err ≠ none) →
      ∃ e, (P.Create (attemptLink env long (afterFailures P env long n w))
          (afterFailures P env long n w).store).err = some e ∧
        retryLoop P env long (n + 1) acc w =
          ((attemptLink env long (afterFailures P env long n w),
              some (GoError.wrap "failed to create short URL: " e)),
            afterFailures P env long (n + 1) w) := by
  induction n with
  | zero =>
    intro acc w hfail
    obtain ⟨e, he⟩ := Option.ne_none_iff_exists'.mp (hfail 0 (Nat.succ_pos 0))
    exact ⟨e, he, by rw [retryLoop_fail P env long 0 acc w e he]; rfl⟩
  | succ n ih =>
    intro acc w hfail
    obtain ⟨e0, he0⟩ := Option.ne_none_iff_exists'.mp (hfail 0 (Nat.succ_pos _))
    obtain ⟨e, he, hloop⟩ := ih (attemptLink env long w,
        some (GoError.wrap "failed to create short URL: " e0)) (failedWorld P env long w)
      (fun j hj => hfail (j + 1) (Nat.succ_lt_succ hj))
    exact ⟨e, he, by rw [retryLoop_fail P env long (n + 1) acc w e0 he0, hloop]; rfl⟩

theorem afterFailures_cache_pending (P : LinkPort σ) (env : Env) (long : String) (k : Nat) :
    ∀ w : World σ κ, (afterFailures P env long k w).cache = w.cache ∧
      (afterFailures P env long k w).pending = w.pending := by
  induction k with
  | zero => intro w; exact ⟨rfl, rfl⟩
  | succ k ih => intro w; exact ih (failedWorld P env long w)

theorem Table.create_fail (l : Link) (t : Table) (h : (Table.repo.Create l t).err ≠ none) :
    t.hasId l.Id = true := by
  cases hp : t.hasId l.Id
  · rw [Table.repo_create_absent l t hp] at h
    exact absurd rfl h
  · rfl

theorem afterFailures_table_store (env : Env) (long : String) (k : Nat) :
    ∀ w : World Table κ,
      (∀ j < k, (Table.repo.Create (attemptLink env long (afterFailures Table.repo env long j w))
        (afterFailures Table.repo env long j w).store).err ≠ none) →
      (afterFailures Table.repo env long k w).store = w.store := by
  induction k with
  | zero => intro w _; rfl
  | succ k ih =>
    intro w hfail
    have h0 := Table.create_fail _ _ (hfail 0 (Nat.succ_pos k))
    have hs : (failedWorld Table.repo env long w).store = w.store := by
      have hc := Table.repo_create_present (attemptLink env long w) w.store h0
      simp [failedWorld, World.log, hc]
    have := ih (failedWorld Table.repo env long w)
      (fun j hj => hfail (j + 1) (Nat.succ_lt_succ hj))
    rw [hs] at this
    exact this

theorem collision_text_ne (id msg tail : String) :
    "failed to create short URL: " ++ (("link with id '" ++ id ++ "' already exists: ") ++ msg) ≠
      "failed to create short URL: " ++ ("failed to put item to DynamoDB: " ++ tail) := by
  intro h
  have h1 := congrArg String.data h
  simp only [String.data_append, List.append_assoc] at h1
  have h2 := List.append_cancel_left h1
  simp only [List.cons_append, List.cons.injEq] at h2
  exact absurd h2.1 (by decide)

/-! ## The create handler: exhausted retries -/

/-- C2. Bounded retry, on the links repository over a reachable table: for a request that
passes validation, when each of the `MaxRetries` = 3 store creates the call makes fails
(on this store a create fails only by reporting that the identifier already exists),
`CreateShortLink` calls `GenerateShortURLID` and the store create alternately exactly three
times each, every create carrying the requested URL, and then answers status 500; the table,
the cache and the list of started goroutines are as before the call, so no link is
persisted. -/
theorem bounded_retry (env : Env) (body long : String) (w : World Table κ)
    (hval : PassesValidation env body long)
    (hcoll : ∀ j < MaxRetries,
      (Table.repo.Create (attemptLink env long (afterFailures Table.repo env long j w))
        (afterFailures Table.repo env long j w).store).err ≠ none) :
    (∃ l1 l2 l3 : Link,
      (CreateShortLink Table.repo env body w).state.trace =
        w.trace ++ [Event.generate l1.Id, Event.storeCreate l1, Event.generate l2.Id,
          Event.storeCreate l2, Event.generate l3.Id, Event.storeCreate l3] ∧
      l1.OriginalURL = long ∧ l2.OriginalURL = long ∧ l3.OriginalURL = long) ∧
    ((CreateShortLink Table.repo env body w).state.trace.drop w.trace.length).countP
      Event.isStoreCreate = MaxRetries ∧
    ((CreateShortLink Table.repo env body w).state.trace.drop w.trace.length).countP
      Event.isGenerate = MaxRetries ∧
    (CreateShortLink Table.repo env body w).val.StatusCode = 500 ∧
    (CreateShortLink Table.repo env body w).state.store = w.store ∧
    (CreateShortLink Table.repo env body w).state.cache = w.cache ∧
    (CreateShortLink Table.repo env body w).state.pending = w.pending := by
  obtain ⟨e, _, hloop⟩ := retryLoop_all_fail Table.repo env long 2 (Link.zero, none) w
    (fun j hj => hcoll j hj)
  have hloop' : retryLoop Table.repo env long MaxRetries (Link.zero, none) w = _ := hloop
  have hfinal : CreateShortLink Table.repo env body w =
      answer (ServerError env (GoError.wrap "failed to create short URL: " e))
        (afterFailures Table.repo env long 3 w) := by
    rw [CreateShortLink_valid Table.repo env body long w hval, hloop']
  have htrace : (afterFailures Table.repo env long 3 w).trace =
      w.trace ++ [Event.generate (attemptLink env long w).Id,
        Event.storeCreate (attemptLink env long w),
        Event.generate (attemptLink env long (failedWorld Table.repo env long w)).Id,
        Event.storeCreate (attemptLink env long (failedWorld Table.repo env long w)),
        Event.generate (attemptLink env long
          (failedWorld Table.repo env long (failedWorld Table.repo env long w))).Id,
        Event.storeCreate (attemptLink env long
          (failedWorld Table.repo env long (failedWorld Table.repo env long w)))] := by
    show (failedWorld Table.repo env long (failedWorld Table.repo env long
      (failedWorld Table.repo env long w))).trace = _
    simp only [failedWorld_trace, List.append_assoc, List.cons_append, List.nil_append]
  have hcp := afterFailures_cache_pending Table.repo env long 3 w
  have hst := afterFailures_table_store env long 3 w (fun j hj => hcoll j hj)
  rw [hfinal]
  refine ⟨⟨_, _, _, htrace, rfl, rfl, rfl⟩, ?_, ?_, rfl, hst, hcp.1, hcp.2⟩
  · show ((afterFailures Table.repo env long 3 w).trace.drop w.trace.length).countP _ = _
    rw [htrace, List.drop_left]
    simp [Event.isStoreCreate, MaxRetries]
  · show ((afterFailures Table.repo env long 3 w).trace.drop w.trace.length).countP _ = _
    rw [htrace, List.drop_left]
    simp [Event.isGenerate, MaxRetries]

/-- C3. Exhausted collisions are told apart from a store failure. For a request that passes
validation: when the three creates on the links repository over a reachable table all
collide, `CreateShortLink` fails through `ServerError` with the error "failed to create
short URL: link with id '<id>' already exists: ..." of the last attempt, in whose chain
`errors.As` finds the failed condition; when, over any DynamoDB client, the three puts fail
with errors that are not a failed condition, it fails through `ServerError` with "failed to
create short URL: failed to put item to DynamoDB: ...", in whose chain there is none. The two
errors are different values with different texts; both answers have status 500. -/
theorem collision_exhausted_distinct (env : Env) (body long : String) (w : World Table κ)
    (cl : DynamoClient δ) (w' : World δ κ')
    (hval : PassesValidation env body long)
    (hcoll : ∀ j < MaxRetries,
      (Table.repo.Create (attemptLink env long (afterFailures Table.repo env long j w))
        (afterFailures Table.repo env long j w).store).err ≠ none)
    (htrans : ∀ j < MaxRetries, ∃ e,
      (cl.PutItemIfAbsent
        (attemptLink env long (afterFailures (LinkRepository.port cl) env long j w'))
        (afterFailures (LinkRepository.port cl) env long j w').store).err = some e ∧
      e.asCondCheckFailed = false) :
    ∃ (id : String) (e : GoError),
      e.asCondCheckFailed = false ∧
      (CreateShortLink Table.repo env body w).val =
        (ServerError env (GoError.wrap "failed to create short URL: "
          (GoError.wrap ("link with id '" ++ id ++ "' already exists: ")
            (GoError.condCheckFailed Table.condFailedMsg)))).1 ∧
      (CreateShortLink (LinkRepository.port cl) env body w').val =
        (ServerError env (GoError.wrap "failed to create short URL: "
          (GoError.wrap "failed to put item to DynamoDB: " e))).1 ∧
      (GoError.wrap "failed to create short URL: "
        (GoError.wrap ("link with id '" ++ id ++ "' already exists: ")
          (GoError.condCheckFailed Table.condFailedMsg))).asCondCheckFailed = true ∧
      (GoError.wrap "failed to create short URL: "
        (GoError.wrap "failed to put item to DynamoDB: " e)).asCondCheckFailed = false ∧
      GoError.wrap "failed to create short URL: "
          (GoError.wrap ("link with id '" ++ id ++ "' already exists: ")
            (GoError.condCheckFailed Table.condFailedMsg)) ≠
        GoError.wrap "failed to create short URL: "
          (GoError.wrap "failed to put item to DynamoDB: " e) ∧
      (GoError.wrap "failed to create short URL: "
          (GoError.wrap ("link with id '" ++ id ++ "' already exists: ")
            (GoError.condCheckFailed Table.condFailedMsg))).Error ≠
        (GoError.wrap "failed to create short URL: "
          (GoError.wrap "failed to put item to DynamoDB: " e)).Error ∧
      (CreateShortLink Table.repo env body w).val.StatusCode = 500 ∧
      (CreateShortLink (LinkRepository.port cl) env body w').val.StatusCode = 500 := by
  -- the run on the table
  obtain ⟨ec, hec, hloopc⟩ := retryLoop_all_fail Table.repo env long 2 (Link.zero, none) w
    (fun j hj => hcoll j hj)
  have hloopc' : retryLoop Table.repo env long MaxRetries (Link.zero, none) w = _ := hloopc
  have hid := Table.create_fail _ _ (hcoll 2 (by decide))
  rw [Table.repo_create_present _ _ hid] at hec
  have hec' := (Option.some.inj hec).symm
  -- the run on the failing client
  have hfail' : ∀ j < 2 + 1,
      ((LinkRepository.port cl).Create
        (attemptLink env long (afterFailures (LinkRepository.port cl) env long j w'))
        (afterFailures (LinkRepository.port cl) env long j w').store).err ≠ none := by
    intro j hj
    obtain ⟨e, he, _⟩ := htrans j hj
    rw [LinkRepository.create_err cl _ _ e he]
    exact Option.some_ne_none _
  obtain ⟨et, het, hloopt⟩ := retryLoop_all_fail (LinkRepository.port cl) env long 2
    (Link.zero, none) w' hfail'
  have hloopt' : retryLoop (LinkRepository.port cl) env long MaxRetries (Link.zero, none) w' = _ :=
    hloopt
  obtain ⟨e, he, hne⟩ := htrans 2 (by decide)
  rw [LinkRepository.create_err cl _ _ e he, hne] at het
  have het' := (Option.some.inj het).symm
  simp only [Bool.false_eq_true, if_false] at het'
  refine ⟨(attemptLink env long (afterFailures Table.repo env long 2 w)).Id, e, hne, ?_, ?_,
    ?_, ?_, ?_, ?_, ?_, ?_⟩
  · rw [CreateShortLink_valid Table.repo env body long w hval, hloopc', hec']
    rfl
  · rw [CreateShortLink_valid (LinkRepository.port cl) env body long w' hval, hloopt', het']
    rfl
  · rfl
  · simp [GoError.asCondCheckFailed, hne]
  · intro h
    have h1 := congrArg GoError.asCondCheckFailed h
    simp [GoError.asCondCheckFailed, hne] at h1
  · simp only [GoError.Error]
    exact collision_text_ne _ _ _
  · rw [CreateShortLink_valid Table.repo env body long w hval, hloopc']
    rfl
  · rw [CreateShortLink_valid (LinkRepository.port cl) env body long w' hval, hloopt']
    rfl

end RetryExhausted

section RedirectHandler

variable {σ σ' κ κ' : Type}

/-! ## The redirect handler -/

/-- C17, as the code has it. For a request whose path gives a non-empty key, a cache miss
and a store `Get` that fails with the error `e`: `GetOriginalURL` returns a nil URL and the
error "failed to get short URL for identifier '<key>': " wrapping `e`, so the store's error
reaches the handler; `Redirect` answers it with status 404 and body "Link not found", a nil
error and no stats goroutine; and this is the very response it gives, on any other store,
when the store has no record for the key. -/
theorem redirect_store_failure_as_not_found (P : LinkPort σ) (C : Cache κ)
    (P' : LinkPort σ') (C' : Cache κ') (env : Env)
    (req : APIGatewayV2HTTPRequest) (w : World σ κ) (w' : World σ' κ') (e : GoError)
    (hpath : 2 ≤ (pathSegments req).length) (hkey : shortLinkKey req ≠ "")
    (hcache : (C.Get (shortLinkKey req) w.cache).err ≠ none ∨
      (C.Get (shortLinkKey req) w.cache).val = "")
    (hstore : (P.Get (shortLinkKey req) w.store).err = some e)
    (hcache' : (C'.Get (shortLinkKey req) w'.cache).err ≠ none ∨
      (C'.Get (shortLinkKey req) w'.cache).val = "")
    (hstore' : (P'.Get (shortLinkKey req) w'.store).err = none)
    (hurl' : (P'.Get (shortLinkKey req) w'.store).val.OriginalURL = "") :
    (LinkService.GetOriginalURL P C (shortLinkKey req) w).val = none ∧
    (LinkService.GetOriginalURL P C (shortLinkKey req) w).err =
      some (GoError.wrap
        ("failed to get short URL for identifier '" ++ shortLinkKey req ++ "': ") e) ∧
    (Redirect P C env req w).val =
      { StatusCode := 404, Body := "Link not found", Headers := [] } ∧
    (Redirect P C env req w).err = none ∧
    (Redirect P C env req w).state.pending = w.pending ∧
    (Redirect P' C' env req w').val = (Redirect P C env req w).val := by
  have hc : ¬ ((C.Get (shortLinkKey req) w.cache).err = none ∧
      (C.Get (shortLinkKey req) w.cache).val ≠ "") := by
    rintro ⟨h1, h2⟩
    rcases hcache with h | h
    · exact h h1
    · exact h2 h
  have hc' : ¬ ((C'.Get (shortLinkKey req) w'.cache).err = none ∧
      (C'.Get (shortLinkKey req) w'.cache).val ≠ "") := by
    rintro ⟨h1, h2⟩
    rcases hcache' with h | h
    · exact h h1
    · exact h2 h
  have hp : ¬ (pathSegments req).length < 2 := Nat.not_lt.mpr hpath
  have hg : LinkService.GetOriginalURL P C (shortLinkKey req) w =
      { val := none
        err := some (GoError.wrap
          ("failed to get short URL for identifier '" ++ shortLinkKey req ++ "': ") e)
        state := World.log (Event.storeGet (shortLinkKey req))
          { World.log (Event.cacheGet (shortLinkKey req))
              { w with cache := (C.Get (shortLinkKey req) w.cache).state } with
            store := (P.Get (shortLinkKey req) w.store).state } } := by
    simp [LinkService.GetOriginalURL, hc, hstore, World.log]
  have hg' : LinkService.GetOriginalURL P' C' (shortLinkKey req) w' =
      { val := none
        err := some (GoError.leaf ("link '" ++ shortLinkKey req ++ "' not found or has no URL"))
        state := World.log (Event.storeGet (shortLinkKey req))
          { World.log (Event.cacheGet (shortLinkKey req))
              { w' with cache := (C'.Get (shortLinkKey req) w'.cache).state } with
            store := (P'.Get (shortLinkKey req) w'.store).state } } := by
    simp [LinkService.GetOriginalURL, hc', hstore', hurl', World.log]
  have hr : Redirect P C env req w =
      answer (ClientError 404 "Link not found")
        (LinkService.GetOriginalURL P C (shortLinkKey req) w).state := by
    simp only [Redirect, hp, hkey, if_false, hg]
  have hr' : Redirect P' C' env req w' =
      answer (ClientError 404 "Link not found")
        (LinkService.GetOriginalURL P' C' (shortLinkKey req) w').state := by
    simp only [Redirect, hp, hkey, if_false, hg']
  refine ⟨by rw [hg], by rw [hg], by rw [hr]; rfl, by rw [hr]; rfl, ?_, by rw [hr, hr']; rfl⟩
  rw [hr, hg]
  rfl

end RedirectHandler

section LinkStats

variable {σ κ : Type}

/-! ## Helper lemmas: counting by platform -/

theorem countAt_increment (name p : String) (m : List (String × Nat)) :
    countAt (increment name m) p = countAt m p + (if p = name then 1 else 0) := by
  induction m with
  | nil =>
    by_cases h : p = name
    · simp [increment, countAt, List.lookup, h]
    · simp [increment, countAt, List.lookup, h, beq_eq_false_iff_ne.mpr h]
  | cons kv rest ih =>
    obtain ⟨k, n⟩ := kv
    unfold countAt at ih
    by_cases hk : k = name
    · subst hk
      by_cases hp : p = k
      · subst hp
        simp [increment, countAt, List.lookup]
      · simp [increment, countAt, List.lookup, hp, beq_eq_false_iff_ne.mpr hp]
    · by_cases hp : p = k
      · subst hp
        have hne : ¬ p = name := hk
        simp [increment, countAt, List.lookup, hk, hne]
      · simp only [increment, hk, if_false, countAt, List.lookup, beq_eq_false_iff_ne.mpr hp]
        exact ih

theorem sum_increment (name : String) (m : List (String × Nat)) :
    ((increment name m).map Prod.snd).sum = (m.map Prod.snd).sum + 1 := by
  induction m with
  | nil => simp [increment]
  | cons kv rest ih =>
    obtain ⟨k, n⟩ := kv
    by_cases hk : k = name
    · simp [increment, hk]; omega
    · simp [increment, hk, ih]; omega

theorem pos_increment (name : String) (m : List (String × Nat))
    (h : ∀ kv ∈ m, 1 ≤ kv.2) : ∀ kv ∈ increment name m, 1 ≤ kv.2 := by
  induction m with
  | nil => intro kv hkv; simp [increment] at hkv; rw [hkv]
  | cons a rest ih =>
    obtain ⟨k, n⟩ := a
    intro kv hkv
    by_cases hk : k = name
    · simp only [increment, hk, if_true, List.mem_cons] at hkv
      rcases hkv with hkv | hkv
      · rw [hkv]; exact Nat.le_add_left 1 n
      · exact h kv (List.mem_cons_of_mem _ hkv)
    · simp only [increment, hk, if_false, List.mem_cons] at hkv
      rcases hkv with hkv | hkv
      · rw [hkv]; exact h (k, n) (List.mem_cons_self _ _)
      · exact ih (fun kv' h' => h kv' (List.mem_cons_of_mem _ h')) kv hkv

theorem keys_increment (name : String) (m : List (String × Nat)) :
    (increment name m).map Prod.fst =
      if name ∈ m.map Prod.fst then m.map Prod.fst else m.map Prod.fst ++ [name] := by
  induction m with
  | nil => simp [increment]
  | cons a rest ih =>
    obtain ⟨k, n⟩ := a
    by_cases hk : k = name
    · simp [increment, hk]
    · have hne : ¬ name = k := fun h => hk h.symm
      simp only [increment, hk, if_false, List.map_cons, ih, List.mem_cons, hne, false_or]
      split <;> simp

theorem nodup_increment (name : String) (m : List (String × Nat))
    (h : (m.map Prod.fst).Nodup) : ((increment name m).map Prod.fst).Nodup := by
  rw [keys_increment]
  split
  · exact h
  · rename_i hn
    rw [List.nodup_append]
    refine ⟨h, List.nodup_singleton _, ?_⟩
    intro a ha hb
    rw [List.mem_singleton] at hb
    subst hb
    exact hn ha

theorem foldl_increment (render : Platform → String) (stats : List Stats) :
    ∀ m : List (String × Nat), (m.map Prod.fst).Nodup → (∀ kv ∈ m, 1 ≤ kv.2) →
      (∀ p, countAt (stats.foldl (fun m stat => increment (render stat.Platform) m) m) p =
        countAt m p + stats.countP (fun s => render s.Platform = p)) ∧
      ((stats.foldl (fun m stat => increment (render stat.Platform) m) m).map Prod.snd).sum =
        (m.map Prod.snd).sum + stats.length ∧
      (∀ kv ∈ stats.foldl (fun m stat => increment (render stat.Platform) m) m, 1 ≤ kv.2) ∧
      ((stats.foldl (fun m stat => increment (render stat.Platform) m) m).map Prod.fst).Nodup := by
  induction stats with
  | nil => intro m hn hp; exact ⟨fun p => by simp, by simp, hp, hn⟩
  | cons s rest ih =>
    intro m hn hp
    obtain ⟨h1, h2, h3, h4⟩ := ih (increment (render s.Platform) m)
      (nodup_increment _ m hn) (pos_increment _ m hp)
    refine ⟨?_, ?_, h3, h4⟩
    · intro p
      rw [List.foldl_cons, h1 p, countAt_increment, List.countP_cons]
      by_cases hpp : p = render s.Platform
      · subst hpp; simp; omega
      · have hpp' : ¬ render s.Platform = p := fun h => hpp h.symm
        simp [hpp, hpp']
    · rw [List.foldl_cons, h2, sum_increment, List.length_cons]
      omega

/-! ## The per-link stats handler -/

/-- C18. Per-link stats breakdown: for a request with a link id, the records fetched for
it and a response map whose JSON encoding succeeds, `GetLinkStats` answers 200 with that
JSON; in the response `total_clicks` is the number of records, and for every platform name
`p` the value of `platform_counts` at `p` (0 when the key is absent) is the number of
records whose platform renders as `p`; the counts sum to `total_clicks`, every key present
has a count of at least 1 and appears once, and no records give total 0 with an empty
breakdown. -/
theorem link_stats_breakdown (env : Env) (senv : StatsEnv) (req : APIGatewayV2HTTPRequest)
    (w : World σ κ) (stats : List Stats) (js : String)
    (hid : mapGet req.PathParameters "id" ≠ "")
    (hfetch : senv.GetStatsByLinkID (mapGet req.PathParameters "id") = Except.ok stats)
    (hjson : senv.marshalResponse
      (linkStatsResponse senv (mapGet req.PathParameters "id") stats) = Except.ok js) :
    (GetLinkStats env senv req w).val =
      { StatusCode := 200, Body := js, Headers := [("Content-Type", "application/json")] } ∧
    (linkStatsResponse senv (mapGet req.PathParameters "id") stats).total_clicks =
      stats.length ∧
    (∀ p, countAt (linkStatsResponse senv (mapGet req.PathParameters "id") stats).platform_counts p =
      stats.countP (fun s => senv.platformString s.Platform = p)) ∧
    (((linkStatsResponse senv (mapGet req.PathParameters "id") stats).platform_counts.map
      Prod.snd).sum =
      (linkStatsResponse senv (mapGet req.PathParameters "id") stats).total_clicks) ∧
    (∀ kv ∈ (linkStatsResponse senv (mapGet req.PathParameters "id") stats).platform_counts,
      1 ≤ kv.2) ∧
    ((linkStatsResponse senv (mapGet req.PathParameters "id") stats).platform_counts.map
      Prod.fst).Nodup ∧
    (linkStatsResponse senv (mapGet req.PathParameters "id") []).total_clicks = 0 ∧
    (linkStatsResponse senv (mapGet req.PathParameters "id") []).platform_counts = [] := by
  obtain ⟨h1, h2, h3, h4⟩ := foldl_increment senv.platformString stats []
    List.nodup_nil (fun kv h => by cases h)
  refine ⟨?_, rfl, ?_, ?_, h3, h4, rfl, rfl⟩
  · simp [GetLinkStats, hid, hfetch, hjson, answer]
  · intro p
    have := h1 p
    simpa [linkStatsResponse, platformCounts, countAt] using this
  · simpa [linkStatsResponse, platformCounts] using h2

end LinkStats

section Denylist

/-! ## Helper lemmas: letter case -/

theorem ascii_case_table : ∀ n : Fin 128,
    (Char.ofNat n.val).toUpper.toNat < 128 ∧ (Char.ofNat n.val).toLower.toNat < 128 ∧
    (Char.ofNat n.val).toUpper.toLower = (Char.ofNat n.val).toLower ∧
    (Char.ofNat n.val).toLower.toLower = (Char.ofNat n.val).toLower := by
  decide

theorem toUpper_of_not_ascii (c : Char) (h : ¬ c.toNat < 128) : c.toUpper = c := by
  unfold Char.toUpper
  have : ¬ (c.toNat ≥ 97 ∧ c.toNat ≤ 122) := by omega
  simp [this]

theorem toLower_of_not_ascii (c : Char) (h : ¬ c.toNat < 128) : c.toLower = c := by
  unfold Char.toLower
  have : ¬ (c.toNat ≥ 65 ∧ c.toNat ≤ 90) := by omega
  simp [this]

theorem lowerRune_toUpper (env : Env) (c : Char) : lowerRune env c.toUpper = lowerRune env c := by
  by_cases h : c.toNat < 128
  · have ht := ascii_case_table ⟨c.toNat, h⟩
    simp only [Char.ofNat_toNat] at ht
    simp [lowerRune, h, ht.1, ht.2.2.1]
  · rw [toUpper_of_not_ascii c h]

theorem lowerRune_toLower (env : Env) (c : Char) : lowerRune env c.toLower = lowerRune env c := by
  by_cases h : c.toNat < 128
  · have ht := ascii_case_table ⟨c.toNat, h⟩
    simp only [Char.ofNat_toNat] at ht
    simp [lowerRune, h, ht.2.1, ht.2.2.2]
  · rw [toLower_of_not_ascii c h]

theorem lowerRune_caseChange (env : Env) (c c' : Char) (h : CaseChange c c') :
    lowerRune env c' = lowerRune env c := by
  rcases h with h | h | h
  · rw [h]
  · rw [h, lowerRune_toUpper]
  · rw [h, lowerRune_toLower]

theorem map_lowerRune_caseChange (env : Env) (l l' : List Char)
    (h : List.Forall₂ CaseChange l l') :
    l'.map (lowerRune env) = l.map (lowerRune env) := by
  induction h with
  | nil => rfl
  | cons hc _ ih =>
    simp only [List.map_cons, ih, lowerRune_caseChange env _ _ hc]

theorem ToLower_caseVariant (env : Env) (u u' : String) (h : CaseVariant u u') :
    ToLower env u' = ToLower env u := by
  unfold ToLower
  rw [map_lowerRune_caseChange env u.toList u'.toList h]

/-! ## The unsafe-scheme denylist -/

/-- C19, as the code has it. Unsafe-scheme denylist: `IsMaliciousURL(u)` is true exactly
when the lower-cased `u` begins with one of "javascript:", "data:", "file:", "vbscript:",
"about:"; the verdict is the same for every string that is `u` up to changes of ASCII
letter case ("JavaScript:alert(1)" is flagged like "javascript:alert(1)"); and no string
that begins with "http://" or "https://" is flagged. -/
theorem malicious_iff_lowercase_scheme (env : Env) (u : String) :
    (IsMaliciousURL env u = true ↔
      ∃ p ∈ ["javascript:", "data:", "file:", "vbscript:", "about:"],
        p.toList <+: (ToLower env u).toList) ∧
    (∀ u', CaseVariant u u' → IsMaliciousURL env u' = IsMaliciousURL env u) ∧
    IsMaliciousURL env "JavaScript:alert(1)" = true ∧
    IsMaliciousURL env "javascript:alert(1)" = true ∧
    (∀ rest : String, IsMaliciousURL env ("http://" ++ rest) = false ∧
      IsMaliciousURL env ("https://" ++ rest) = false) := by
  refine ⟨?_, ?_, ?_, ?_, ?_⟩
  · simp [IsMaliciousURL, suspiciousPatterns, HasPrefix]
  · intro u' h
    unfold IsMaliciousURL
    rw [ToLower_caseVariant env u u' h]
  · rfl
  · rfl
  · intro rest
    constructor <;>
      simp [IsMaliciousURL, suspiciousPatterns, HasPrefix, ToLower, lowerRune, List.isPrefixOf]

end Denylist

/-! # The theorems at concrete inputs -/

section Witnesses

/-- C6 at `TestCacheHitScenario`: the cached URL is returned, one cache `Get`, no store call. -/
theorem cache_hit_fast_path_witness :
    (ImprovedMockCache.port.Get "test123" Scenario.hitWorld.cache).err = none ∧
    (ImprovedMockCache.port.Get "test123" Scenario.hitWorld.cache).val ≠ "" ∧
    (LinkService.GetOriginalURL Table.repo ImprovedMockCache.port "test123" Scenario.hitWorld).val =
      some "https://example.com/long-url" ∧
    (LinkService.GetOriginalURL Table.repo ImprovedMockCache.port "test123"
      Scenario.hitWorld).state.trace = [Event.cacheGet "test123"] :=
  have h := cache_hit_fast_path Table.repo ImprovedMockCache.port "test123" Scenario.hitWorld
    (by decide) (by decide)
  ⟨by decide, by decide, h.1, h.2.2.1⟩

/-- C5 at `TestCacheFailureHandling`: the cache fails and the store's URL is returned. -/
theorem degrade_to_store_witness :
    ((ImprovedMockCache.port.Get "fail123" Scenario.failWorld.cache).err ≠ none ∨
      (ImprovedMockCache.port.Get "fail123" Scenario.failWorld.cache).val = "") ∧
    (LinkService.GetOriginalURL Table.repo ImprovedMockCache.port "fail123" Scenario.failWorld).val =
      some "https://example.com/fail-test" ∧
    (LinkService.GetOriginalURL Table.repo ImprovedMockCache.port "fail123" Scenario.failWorld).err =
      none :=
  have h := degrade_to_store Table.repo ImprovedMockCache.port "fail123" Scenario.failWorld
    (by decide) (by decide) (by decide)
  ⟨by decide, h.1, h.2.1⟩

/-- C4 on an empty table and an empty cache: an unknown id gives the not-found error and
starts no goroutine. -/
theorem resolve_unknown_id_witness :
    Table.lookup Scenario.emptyWorld.store "nosuchid" = none ∧
    (LinkService.GetOriginalURL Table.repo ImprovedMockCache.port "nosuchid"
      Scenario.emptyWorld).val = none ∧
    (LinkService.GetOriginalURL Table.repo ImprovedMockCache.port "nosuchid"
      Scenario.emptyWorld).err = some (GoError.leaf "link 'nosuchid' not found or has no URL") ∧
    (LinkService.GetOriginalURL Table.repo ImprovedMockCache.port "nosuchid"
      Scenario.emptyWorld).state.pending = [] ∧
    (LinkService.GetOriginalURL Table.repo ImprovedMockCache.port "nosuchid"
      Scenario.emptyWorld).state.cache.data = Scenario.emptyWorld.cache.data :=
  have h := resolve_unknown_id Table.repo ImprovedMockCache.port "nosuchid" Scenario.emptyWorld
    (by decide) (by decide) (by decide)
  ⟨by decide, h.1, h.2.1, h.2.2.1, by decide⟩

/-- C8 at `TestDeleteLinkRemovesFromCache`, once the started invalidation has run: the
resolve fails with the not-found error. -/
theorem delete_then_resolve_witness :
    (runPending ImprovedMockCache.port
      (LinkService.Delete Table.repo "delete123" Scenario.deleteWorld).state).cache.find "delete123" =
      none ∧
    (LinkService.Delete Table.repo "delete123" Scenario.deleteWorld).err = none ∧
    (LinkService.GetOriginalURL Table.repo ImprovedMockCache.port "delete123"
      (runPending ImprovedMockCache.port
        (LinkService.Delete Table.repo "delete123" Scenario.deleteWorld).state)).val = none ∧
    (LinkService.GetOriginalURL Table.repo ImprovedMockCache.port "delete123"
      (runPending ImprovedMockCache.port
        (LinkService.Delete Table.repo "delete123" Scenario.deleteWorld).state)).err =
      some (GoError.leaf "link 'delete123' not found or has no URL") :=
  have h := delete_then_resolve ImprovedMockCache.port "delete123" Scenario.deleteWorld
    (runPending ImprovedMockCache.port
      (LinkService.Delete Table.repo "delete123" Scenario.deleteWorld).state)
    (by decide) (by decide)
  ⟨by decide, h.1, h.2.1, h.2.2⟩

/-- C1 at `TestCreateLinkPopulatesCache`: the new link resolves to its URL before and after
the cache has been filled. -/
theorem create_resolve_round_trip_witness :
    Scenario.newLink.OriginalURL ≠ "" ∧
    Scenario.emptyWorld.store.hasId Scenario.newLink.Id = false ∧
    (LinkService.Create Table.repo Scenario.newLink Scenario.emptyWorld).err = none ∧
    (LinkService.GetOriginalURL Table.repo ImprovedMockCache.port Scenario.newLink.Id
      (LinkService.Create Table.repo Scenario.newLink Scenario.emptyWorld).state).val =
      some Scenario.newLink.OriginalURL ∧
    (LinkService.GetOriginalURL Table.repo ImprovedMockCache.port Scenario.newLink.Id
      (Task.run ImprovedMockCache.port
        (Task.cacheSet Scenario.newLink.Id Scenario.newLink.OriginalURL)
        (LinkService.Create Table.repo Scenario.newLink Scenario.emptyWorld).state)).val =
      some Scenario.newLink.OriginalURL :=
  have h := create_resolve_round_trip Scenario.newLink Scenario.emptyWorld
    (by decide) (by decide) (by decide)
  ⟨by decide, by decide, h.1, h.2.2.1, h.2.2.2.2.2.1⟩

/-- C10 on a table holding one link: creating a second link with the same id and a new one
keeps one row per id and the first row in place. -/
theorem identifier_uniqueness_witness :
    (Table.ids [Scenario.taken]).Nodup ∧
    (Table.ids (Table.createAll [Scenario.taken]
      [{ Scenario.taken with OriginalURL := "https://example.com/other" }, Scenario.newLink])).Nodup ∧
    Table.lookup (Table.createAll [Scenario.taken]
      [{ Scenario.taken with OriginalURL := "https://example.com/other" }, Scenario.newLink])
      "aaaaaaaa" = some Scenario.taken :=
  have h := identifier_uniqueness [Scenario.taken]
    [{ Scenario.taken with OriginalURL := "https://example.com/other" }, Scenario.newLink]
    (by decide)
  ⟨by decide, h.1, h.2.1 "aaaaaaaa" Scenario.taken (by decide)⟩

theorem Scenario.passes : PassesValidation Scenario.env Scenario.url Scenario.url :=
  ⟨rfl, by decide, by decide, rfl, by decide⟩

/-- C9 on three links, the fetch for the second failing and the goroutines completing in
the order 2, 0, 1: all three links come back in order, the second with empty stats. -/
theorem stats_join_tolerates_failure_witness :
    (Table.repo.All Scenario.listWorld.store).err = none ∧
    [2, 0, 1].Perm (List.range (Table.repo.All Scenario.listWorld.store).val.length) ∧
    joinStats Scenario.statsFetch [2, 0, 1] (Table.repo.All Scenario.listWorld.store).val =
      specJoin Scenario.statsFetch (Table.repo.All Scenario.listWorld.store).val ∧
    (StatsHandler Table.repo Scenario.env Scenario.statsFetch [2, 0, 1] Scenario.listWorld).val =
      { StatusCode := 200, Body := "linkAAAA,linkBBBB,linkCCCC"
        Headers := [("Content-Type", "application/json")] } :=
  have h := stats_join_tolerates_failure Table.repo Scenario.env Scenario.statsFetch [2, 0, 1]
    Scenario.listWorld "linkAAAA,linkBBBB,linkCCCC" (by decide) (by decide) (by decide) rfl
  ⟨by decide, by decide, h.1, h.2.2.1⟩

/-- C12, the claim refuted: with a random source that fails on every draw,
`GenerateShortURLID` returns the identifier "abcdefgh", read off the clock readings 0 to 7,
and `CreateShortLink` persists it and answers 201: no error reaches the caller. -/
theorem random_failure_counterexample :
    (∀ n, Scenario.noRandEnv.rand n = none) ∧
    (GenerateShortURLID Scenario.noRandEnv ShortIDLength Scenario.emptyWorld).1 = "abcdefgh" ∧
    (CreateShortLink Table.repo Scenario.noRandEnv Scenario.url
      Scenario.emptyWorld).val.StatusCode = 201 ∧
    (Table.ids (CreateShortLink Table.repo Scenario.noRandEnv Scenario.url
      Scenario.emptyWorld).state.store) = ["abcdefgh"] :=
  ⟨fun _ => rfl, by decide, by decide, by decide⟩

/-- C12 as amended, with the draws at even positions failing: the identifier alternates
clock characters (readings 0, 1, 2, 3 give a, b, c, d) with the drawn character b. -/
theorem generate_id_clock_fallback_witness :
    (GenerateShortURLID Scenario.halfRandEnv ShortIDLength Scenario.emptyWorld).1 = "abbbcbdb" ∧
    (GenerateShortURLID Scenario.halfRandEnv ShortIDLength Scenario.emptyWorld).1.length =
      ShortIDLength ∧
    (GenerateShortURLID Scenario.halfRandEnv ShortIDLength Scenario.emptyWorld).1.toList[2]? =
      some (charsetAt ⟨Scenario.halfRandEnv.clock
        (Scenario.emptyWorld.clockPos + failedDraws Scenario.halfRandEnv
          Scenario.emptyWorld.randPos 2) % 62, Nat.mod_lt _ (by decide)⟩) ∧
    (GenerateShortURLID Scenario.halfRandEnv ShortIDLength Scenario.emptyWorld).2.clockPos =
      Scenario.emptyWorld.clockPos +
        failedDraws Scenario.halfRandEnv Scenario.emptyWorld.randPos ShortIDLength :=
  have h := generate_id_clock_fallback Scenario.halfRandEnv ShortIDLength Scenario.emptyWorld
  ⟨by decide, h.1, h.2.1 2 (by decide) (by decide), h.2.2.2.1⟩

/-- C14, the claim refuted: a URL of 14 characters whose UTF-8 form has 15 bytes passes the
length check; the answer is 201 when `IsValidLink` accepts it and 400 "Invalid URL format"
when it does not, never the minimum-length message. -/
theorem min_length_counterexample :
    Scenario.accentUrl.length = 14 ∧
    Scenario.accentUrl.utf8ByteSize = 15 ∧
    (CreateShortLink Table.repo Scenario.env Scenario.accentUrl
      Scenario.emptyWorld).val.StatusCode = 201 ∧
    (CreateShortLink Table.repo Scenario.strictEnv Scenario.accentUrl
      Scenario.emptyWorld).val.Body = "Invalid URL format" := by
  decide

/-- C14 as amended, at the URLs "", "short" and "invalid" of the spec and the test. -/
theorem short_url_rejected_witness :
    ("" : String).utf8ByteSize < MinURLLength ∧
    (CreateShortLink Table.repo Scenario.env "" Scenario.emptyWorld).val =
      { StatusCode := 400, Body := "URL cannot be empty", Headers := [] } ∧
    (CreateShortLink Table.repo Scenario.env "short" Scenario.emptyWorld).val.Body =
      "URL must be at least 15 characters long" ∧
    (CreateShortLink Table.repo Scenario.env "invalid" Scenario.emptyWorld).val.Body =
      "URL must be at least 15 characters long" :=
  have h0 := short_url_rejected Table.repo Scenario.env "" "" Scenario.emptyWorld rfl (by decide)
  have h1 := short_url_rejected Table.repo Scenario.env "short" "short" Scenario.emptyWorld rfl
    (by decide)
  have h2 := short_url_rejected Table.repo Scenario.env "invalid" "invalid" Scenario.emptyWorld
    rfl (by decide)
  ⟨by decide, by decide, h1.2.1, h2.2.1⟩

/-- C15 with "aaaaaaaa" taken and the second identifier "bbbbbbbb" free: the first create
fails, the second succeeds, and the answer is 201 with the second link. -/
theorem create_stops_at_first_success_witness :
    PassesValidation Scenario.retryEnv Scenario.url Scenario.url ∧
    (CreateShortLink Table.repo Scenario.retryEnv Scenario.url Scenario.takenWorld).val =
      { StatusCode := 201, Body := "bbbbbbbb", Headers := [("Content-Type", "application/json")] } ∧
    ((CreateShortLink Table.repo Scenario.retryEnv Scenario.url
      Scenario.takenWorld).state.trace.drop Scenario.takenWorld.trace.length).countP
      Event.isStoreCreate = 2 :=
  have hv : PassesValidation Scenario.retryEnv Scenario.url Scenario.url :=
    ⟨rfl, by decide, by decide, rfl, by decide⟩
  have h := create_stops_at_first_success Table.repo Scenario.retryEnv Scenario.url Scenario.url
    Scenario.takenWorld 1 "bbbbbbbb" hv (by decide) (by decide) (by decide) rfl
  ⟨hv, h.1, h.2.2.2.2.1⟩

/-- C16, the claim refuted: for the URL of the handler test and a store that accepts the
create, the status code is 201, not 200. -/
theorem create_status_counterexample :
    (Table.repo.Create (attemptLink Scenario.env Scenario.url Scenario.emptyWorld)
      Scenario.emptyWorld.store).err = none ∧
    (CreateShortLink Table.repo Scenario.env Scenario.url Scenario.emptyWorld).err = none ∧
    (CreateShortLink Table.repo Scenario.env Scenario.url Scenario.emptyWorld).val.StatusCode =
      201 ∧
    (CreateShortLink Table.repo Scenario.env Scenario.url Scenario.emptyWorld).val.StatusCode ≠
      200 := by
  decide

/-- C16 as amended, at the URL of the handler test on an empty table. -/
theorem create_answers_created_witness :
    PassesValidation Scenario.env Scenario.url Scenario.url ∧
    (CreateShortLink Table.repo Scenario.env Scenario.url Scenario.emptyWorld).err = none ∧
    (CreateShortLink Table.repo Scenario.env Scenario.url Scenario.emptyWorld).val.StatusCode =
      201 :=
  have hv : PassesValidation Scenario.env Scenario.url Scenario.url :=
    ⟨rfl, by decide, by decide, rfl, by decide⟩
  have h := create_answers_created Table.repo Scenario.env Scenario.url Scenario.url
    Scenario.emptyWorld "aaaaaaaa" hv (by decide) rfl
  ⟨hv, h.1, h.2.1⟩

/-- C17, the claim refuted: on an unreachable backend the resolve fails with the store's
error, and `Redirect` answers 404, the response an unknown key gets on an empty table. -/
theorem redirect_store_failure_counterexample :
    (LinkService.GetOriginalURL (LinkRepository.port Scenario.downClient)
      ImprovedMockCache.port "abc12345" Scenario.downWorld).err =
      some (GoError.wrap "failed to get short URL for identifier 'abc12345': "
        (GoError.wrap "failed to get item from DynamoDB: "
          (GoError.leaf "RequestError: send request failed"))) ∧
    (Redirect (LinkRepository.port Scenario.downClient) ImprovedMockCache.port Scenario.env
      Scenario.redirectReq Scenario.downWorld).val.StatusCode = 404 ∧
    (Redirect (LinkRepository.port Scenario.downClient) ImprovedMockCache.port Scenario.env
      Scenario.redirectReq Scenario.downWorld).val =
      (Redirect Table.repo ImprovedMockCache.port Scenario.env Scenario.redirectReq
        Scenario.emptyWorld).val := by
  decide

/-- C17 as amended, on the unreachable backend against an empty table. -/
theorem redirect_store_failure_as_not_found_witness :
    shortLinkKey Scenario.redirectReq = "abc12345" ∧
    (Redirect (LinkRepository.port Scenario.downClient) ImprovedMockCache.port Scenario.env
      Scenario.redirectReq Scenario.downWorld).val =
      { StatusCode := 404, Body := "Link not found", Headers := [] } ∧
    (Redirect Table.repo ImprovedMockCache.port Scenario.env Scenario.redirectReq
      Scenario.emptyWorld).val =
      (Redirect (LinkRepository.port Scenario.downClient) ImprovedMockCache.port Scenario.env
        Scenario.redirectReq Scenario.downWorld).val :=
  have h := redirect_store_failure_as_not_found (LinkRepository.port Scenario.downClient)
    ImprovedMockCache.port Table.repo ImprovedMockCache.port Scenario.env Scenario.redirectReq
    Scenario.downWorld Scenario.emptyWorld (GoError.wrap "failed to get item from DynamoDB: "
      (GoError.leaf "RequestError: send request failed"))
    (by decide) (by decide) (by decide) (by decide) (by decide) (by decide) (by decide)
  ⟨by decide, h.2.2.1, h.2.2.2.2.2⟩

/-- C18 on three clicks, two from Twitter and one from Instagram. -/
theorem link_stats_breakdown_witness :
    mapGet Scenario.statsReq.PathParameters "id" ≠ "" ∧
    (GetLinkStats Scenario.env Scenario.statsEnv Scenario.statsReq Scenario.emptyWorld).val =
      { StatusCode := 200, Body := "linkAAAA", Headers := [("Content-Type", "application/json")] } ∧
    (linkStatsResponse Scenario.statsEnv "linkAAAA"
      [{ Id := "s1", LinkID := "linkAAAA", CreatedAt := 1, Platform := Platform.Twitter },
       { Id := "s2", LinkID := "linkAAAA", CreatedAt := 2, Platform := Platform.Instagram },
       { Id := "s3", LinkID := "linkAAAA", CreatedAt := 3, Platform := Platform.Twitter }]).platform_counts =
      [("Twitter", 2), ("Instagram", 1)] :=
  have h := link_stats_breakdown Scenario.env Scenario.statsEnv Scenario.statsReq
    Scenario.emptyWorld
    [{ Id := "s1", LinkID := "linkAAAA", CreatedAt := 1, Platform := Platform.Twitter },
     { Id := "s2", LinkID := "linkAAAA", CreatedAt := 2, Platform := Platform.Instagram },
     { Id := "s3", LinkID := "linkAAAA", CreatedAt := 3, Platform := Platform.Twitter }]
    "linkAAAA" (by decide) rfl rfl
  ⟨by decide, h.1, by decide⟩

/-- C2 with "aaaaaaaa" and "bbbbbbbb" stored and the identifiers drawn being "aaaaaaaa",
"bbbbbbbb", "bbbbbbbb": three creates, three identifiers, status 500, the table as before. -/
theorem bounded_retry_witness :
    PassesValidation Scenario.retryEnv Scenario.url Scenario.url ∧
    (∀ j < MaxRetries,
      (Table.repo.Create
        (attemptLink Scenario.retryEnv Scenario.url
          (afterFailures Table.repo Scenario.retryEnv Scenario.url j Scenario.twoTakenWorld))
        (afterFailures Table.repo Scenario.retryEnv Scenario.url j
          Scenario.twoTakenWorld).store).err ≠ none) ∧
    ((CreateShortLink Table.repo Scenario.retryEnv Scenario.url
      Scenario.twoTakenWorld).state.trace.drop Scenario.twoTakenWorld.trace.length).countP
      Event.isStoreCreate = MaxRetries ∧
    ((CreateShortLink Table.repo Scenario.retryEnv Scenario.url
      Scenario.twoTakenWorld).state.trace.drop Scenario.twoTakenWorld.trace.length).countP
      Event.isGenerate = MaxRetries ∧
    (CreateShortLink Table.repo Scenario.retryEnv Scenario.url
      Scenario.twoTakenWorld).val.StatusCode = 500 ∧
    (CreateShortLink Table.repo Scenario.retryEnv Scenario.url
      Scenario.twoTakenWorld).state.store = Scenario.twoTakenWorld.store :=
  have hv : PassesValidation Scenario.retryEnv Scenario.url Scenario.url :=
    ⟨rfl, by decide, by decide, rfl, by decide⟩
  have h := bounded_retry Scenario.retryEnv Scenario.url Scenario.url Scenario.twoTakenWorld hv
    (by decide)
  ⟨hv, by decide, h.2.1, h.2.2.1, h.2.2.2.1, h.2.2.2.2.1⟩

/-- C3 with three collisions on a table holding both identifiers that can be drawn, against
three failed puts on an unreachable backend: different errors, both with status 500. -/
theorem collision_exhausted_distinct_witness :
    PassesValidation Scenario.retryEnv Scenario.url Scenario.url ∧
    (∃ (id : String) (e : GoError),
      e.asCondCheckFailed = false ∧
      GoError.wrap "failed to create short URL: "
          (GoError.wrap ("link with id '" ++ id ++ "' already exists: ")
            (GoError.condCheckFailed Table.condFailedMsg)) ≠
        GoError.wrap "failed to create short URL: "
          (GoError.wrap "failed to put item to DynamoDB: " e)) ∧
    (CreateShortLink Table.repo Scenario.retryEnv Scenario.url
      Scenario.twoTakenWorld).val.StatusCode = 500 ∧
    (CreateShortLink (LinkRepository.port Scenario.downClient) Scenario.retryEnv Scenario.url
      Scenario.downWorld).val.StatusCode = 500 := by
  have hv : PassesValidation Scenario.retryEnv Scenario.url Scenario.url :=
    ⟨rfl, by decide, by decide, rfl, by decide⟩
  obtain ⟨id, e, h1, _, _, _, _, h6, _, h8, h9⟩ :=
    collision_exhausted_distinct Scenario.retryEnv Scenario.url Scenario.url
      Scenario.twoTakenWorld Scenario.downClient Scenario.downWorld hv (by decide)
      (fun _ _ => ⟨GoError.leaf "RequestError: send request failed", rfl, rfl⟩)
  exact ⟨hv, ⟨id, e, h1, h6⟩, h8, h9⟩

/-- C19, the claim refuted: "javascript:alert(1)" written with the long s is not flagged,
and its upper-casing "JAVASCRIPT:ALERT(1)" is. -/
theorem letter_case_counterexample :
    "JAVASCRIPT:ALERT(1)".toList = Scenario.longSUrl.toList.map Scenario.upperRune ∧
    Scenario.env.unicodeLower (Char.ofNat 383) = Char.ofNat 383 ∧
    IsMaliciousURL Scenario.env Scenario.longSUrl = false ∧
    IsMaliciousURL Scenario.env "JAVASCRIPT:ALERT(1)" = true := by
  decide

end Witnesses

end UrlShortener
